import Mathlib

/-!
Shallow embedding of the 2D rigid-body physics core of the PhysicsAdventure
repository (src/js/physics/Vector2D.js, src/js/physics/RigidBody.js,
src/js/physics/PhysicsEngine.js and the collision-detection/spatial-grid file),
together with theorems settling the frozen claims about it.

Modelling conventions:
* JavaScript numbers are modelled as real numbers (ℝ).  `Math.sqrt` becomes
  `Real.sqrt`; the development is therefore `noncomputable` and concrete
  evaluations are carried out by `simp`/`norm_num` proofs.
* JavaScript object identity (reference equality, `===`, `Array.includes`,
  `Set` de-duplication) is modelled by a `ref : Nat` field on each body that
  plays the role of the object's address; every allocation uses a fresh `ref`.
* Mutation is modelled by explicit state passing: a method that mutates
  `this`/`other` becomes a function returning the updated record(s).
* Synchronous event emission (`emit`) is modelled by returning the list of
  emitted payloads (and, for the listener model of claim C6, by explicit
  exception passing with `Except`).
* The `timestamp: Date.now()` field stored with each queued force is real-time
  data that no other code reads; it is omitted from the force-list entries.
-/

noncomputable section

/-- Embedding of `Vector2D` (src/js/physics/Vector2D.js): an `(x, y)` pair of
real numbers. -/
structure Vector2D where
  x : ℝ
  y : ℝ
deriving DecidableEq

namespace Vector2D

/-- `Vector2D.zero()` (Vector2D.js line 11). -/
def zero : Vector2D := ⟨0, 0⟩

/-- `add` (Vector2D.js line 30): componentwise sum, returning a new vector. -/
def add (v w : Vector2D) : Vector2D := ⟨v.x + w.x, v.y + w.y⟩

/-- `subtract` (Vector2D.js line 34). -/
def subtract (v w : Vector2D) : Vector2D := ⟨v.x - w.x, v.y - w.y⟩

/-- `multiply` (Vector2D.js line 38): scaling by a scalar. -/
def multiply (v : Vector2D) (s : ℝ) : Vector2D := ⟨v.x * s, v.y * s⟩

/-- `magnitude` (Vector2D.js line 74): `Math.sqrt(x*x + y*y)`. -/
def magnitude (v : Vector2D) : ℝ := Real.sqrt (v.x * v.x + v.y * v.y)

/-- `magnitudeSquared` (Vector2D.js line 78). -/
def magnitudeSquared (v : Vector2D) : ℝ := v.x * v.x + v.y * v.y

/-- `normalize` (Vector2D.js line 86): the zero vector normalizes to the zero
vector, otherwise each component is divided by the magnitude. -/
def normalize (v : Vector2D) : Vector2D :=
  if v.magnitude = 0 then zero else ⟨v.x / v.magnitude, v.y / v.magnitude⟩

/-- `dot` (Vector2D.js line 105). -/
def dot (v w : Vector2D) : ℝ := v.x * w.x + v.y * w.y

/-- `cross` (Vector2D.js line 109): the scalar 2D cross product. -/
def cross (v w : Vector2D) : ℝ := v.x * w.y - v.y * w.x

/-- `distance` (Vector2D.js line 113): magnitude of the difference. -/
def dist (v w : Vector2D) : ℝ := (v.subtract w).magnitude

/-- `isZero(tolerance)` (Vector2D.js line 185): magnitude below the tolerance.
The source's default tolerance `0.0001` is passed explicitly at call sites. -/
def isZero (v : Vector2D) (tolerance : ℝ) : Prop := v.magnitude < tolerance

instance (v : Vector2D) (t : ℝ) : Decidable (v.isZero t) := by
  unfold Vector2D.isZero; infer_instance

end Vector2D

/-- An axis-aligned box as produced by `RigidBody.getBounds` and stored as the
world bounds of the engine (PhysicsEngine.js lines 44-49). -/
structure Bounds where
  left : ℝ
  right : ℝ
  top : ℝ
  bottom : ℝ

/-- Embedding of the `RigidBody` state (RigidBody.js constructor, lines 5-63).
`ref` models the JavaScript object identity (the "address" of the object); the
engine allocates bodies with pairwise distinct `ref`s.  The per-force
`timestamp` field (line 106) is omitted: no code reads it. -/
structure RigidBody where
  ref : Nat
  position : Vector2D
  velocity : Vector2D
  acceleration : Vector2D
  mass : ℝ
  inverseMass : ℝ
  restitution : ℝ
  friction : ℝ
  drag : ℝ
  radius : ℝ
  shape : String
  width : ℝ
  height : ℝ
  isStatic : Bool
  isKinematic : Bool
  isSleeping : Bool
  sleepThreshold : ℝ
  forces : List (Vector2D × Option Vector2D)
  torque : ℝ
  angularVelocity : ℝ
  angle : ℝ
  angularDrag : ℝ
  density : ℝ
  material : String
  color : String
  strokeColor : String
  strokeWidth : ℝ
  id : String
  type : String
  tags : List String
  previousPosition : Vector2D
  netForce : Vector2D
  netTorque : ℝ
  colliding : Bool
  collisionNormal : Vector2D
  collisionDepth : ℝ
  momentOfInertia : ℝ
  inverseMomentOfInertia : ℝ

namespace RigidBody

/-- Fuel-indexed embedding of `getBounds` (RigidBody.js lines 311-332).  The
source's `default` branch is `return this.getBounds();` — an unconditional
self-call with the same receiver, so for any shape other than `'circle'` or
`'rectangle'` the JavaScript call never returns.  The fuel argument makes that
divergence observable: the call diverges exactly when every amount of fuel
yields `none`. -/
def getBoundsFuel : Nat → RigidBody → Option Bounds
  | 0, _ => none
  | fuel + 1, b =>
    match b.shape with
    | "circle" =>
      some ⟨b.position.x - b.radius, b.position.x + b.radius,
            b.position.y + b.radius, b.position.y - b.radius⟩
    | "rectangle" =>
      some ⟨b.position.x - b.width / 2, b.position.x + b.width / 2,
            b.position.y + b.height / 2, b.position.y - b.height / 2⟩
    | _ => getBoundsFuel fuel b

/-- Total convenience variant of `getBounds` agreeing with `getBoundsFuel` on
the two shapes the source handles (`'circle'`, `'rectangle'`); every use below
is guarded by a shape hypothesis, since on any other shape the source function
never returns (see `getBoundsFuel`).  The value returned here on an unknown
shape is an arbitrary placeholder. -/
def getBounds (b : RigidBody) : Bounds :=
  if b.shape = "rectangle" then
    ⟨b.position.x - b.width / 2, b.position.x + b.width / 2,
     b.position.y + b.height / 2, b.position.y - b.height / 2⟩
  else
    ⟨b.position.x - b.radius, b.position.x + b.radius,
     b.position.y + b.radius, b.position.y - b.radius⟩

/-- A body whose `shape` is one of the two values the source's shape dispatch
handles. -/
def knownShape (b : RigidBody) : Prop := b.shape = "circle" ∨ b.shape = "rectangle"

instance (b : RigidBody) : Decidable b.knownShape := by
  unfold RigidBody.knownShape; infer_instance

end RigidBody

/-- The options record accepted by the `RigidBody` constructor (RigidBody.js
lines 5-63).  `none` models an absent field.  JavaScript's `||` defaulting
treats falsy present values (`0` for numbers, `""` for strings, `false` for
booleans) like absent ones; that behaviour lives in `orNum`/`orStr`/`orBool`
below. -/
structure BodyOptions where
  position : Option Vector2D := none
  velocity : Option Vector2D := none
  acceleration : Option Vector2D := none
  mass : Option ℝ := none
  restitution : Option ℝ := none
  friction : Option ℝ := none
  drag : Option ℝ := none
  radius : Option ℝ := none
  shape : Option String := none
  width : Option ℝ := none
  height : Option ℝ := none
  isStatic : Option Bool := none
  isKinematic : Option Bool := none
  angularVelocity : Option ℝ := none
  angle : Option ℝ := none
  angularDrag : Option ℝ := none
  density : Option ℝ := none
  material : Option String := none
  color : Option String := none
  strokeColor : Option String := none
  strokeWidth : Option ℝ := none
  id : Option String := none
  type : Option String := none
  tags : Option (List String) := none

/-- JavaScript `options.f || d` for a numeric field: an absent or zero (falsy)
value yields the default. -/
def orNum (o : Option ℝ) (d : ℝ) : ℝ :=
  match o with
  | some x => if x = 0 then d else x
  | none => d

/-- JavaScript `options.f || d` for a string field: an absent or empty (falsy)
value yields the default. -/
def orStr (o : Option String) (d : String) : String :=
  match o with
  | some s => if s = "" then d else s
  | none => d

/-- JavaScript `options.f || d` for a boolean field. -/
def orBool (o : Option Bool) (d : Bool) : Bool :=
  match o with
  | some b => b || d
  | none => d

namespace RigidBody

/-- `updateMomentOfInertia` (RigidBody.js lines 78-97). -/
def updateMomentOfInertia (b : RigidBody) : RigidBody :=
  if b.isStatic then
    { b with momentOfInertia := 0, inverseMomentOfInertia := 0 }
  else
    let moi :=
      match b.shape with
      | "circle" => 0.5 * b.mass * b.radius * b.radius
      | "rectangle" => b.mass * (b.width * b.width + b.height * b.height) / 12
      | _ => b.mass * b.radius * b.radius
    { b with
      momentOfInertia := moi,
      inverseMomentOfInertia := if moi > 0 then 1 / moi else 0 }

/-- `updateDerivedProperties` (RigidBody.js lines 66-76): for non-positive mass
the body is forced static with zero inverse mass, otherwise the inverse mass is
recomputed; the moment of inertia is then refreshed. -/
def updateDerivedProperties (b : RigidBody) : RigidBody :=
  let b :=
    if b.mass ≤ 0 then { b with inverseMass := 0, isStatic := true }
    else { b with inverseMass := 1 / b.mass }
  b.updateMomentOfInertia

end RigidBody

/-- The `RigidBody` constructor (RigidBody.js lines 5-63).  `ref` is the fresh
object identity of the allocation; the source's random default `id`
(`Math.random().toString(36).substr(2, 9)`, line 47) is a fresh arbitrary
non-empty string, modelled as a name derived from the allocation counter. -/
def mkRigidBody (ref : Nat) (o : BodyOptions) : RigidBody :=
  let position := o.position.getD Vector2D.zero
  let radius := orNum o.radius 10
  let base : RigidBody :=
    { ref := ref
      position := position
      velocity := o.velocity.getD Vector2D.zero
      acceleration := o.acceleration.getD Vector2D.zero
      mass := orNum o.mass 1
      inverseMass := if orNum o.mass 1 > 0 then 1 / orNum o.mass 1 else 0
      restitution := orNum o.restitution 0.8
      friction := orNum o.friction 0.1
      drag := orNum o.drag 0.001
      radius := radius
      shape := orStr o.shape "circle"
      width := orNum o.width (radius * 2)
      height := orNum o.height (radius * 2)
      isStatic := orBool o.isStatic false
      isKinematic := orBool o.isKinematic false
      isSleeping := false
      sleepThreshold := 0.01
      forces := []
      torque := 0
      angularVelocity := orNum o.angularVelocity 0
      angle := orNum o.angle 0
      angularDrag := orNum o.angularDrag 0.01
      density := orNum o.density 1
      material := orStr o.material "default"
      color := orStr o.color "#ffffff"
      strokeColor := orStr o.strokeColor "#000000"
      strokeWidth := orNum o.strokeWidth 1
      id := orStr o.id (String.append "body" (Nat.repr ref))
      type := orStr o.type "rigidbody"
      tags := o.tags.getD []
      previousPosition := position
      netForce := Vector2D.zero
      netTorque := 0
      colliding := false
      collisionNormal := Vector2D.zero
      collisionDepth := 0
      momentOfInertia := 0
      inverseMomentOfInertia := 0 }
  base.updateDerivedProperties

/-- The flat record produced by `RigidBody.toJSON` (RigidBody.js lines
348-367). -/
structure BodyJSON where
  id : String
  type : String
  position : Vector2D
  velocity : Vector2D
  angle : ℝ
  angularVelocity : ℝ
  mass : ℝ
  restitution : ℝ
  friction : ℝ
  shape : String
  radius : ℝ
  width : ℝ
  height : ℝ
  isStatic : Bool
  material : String
  color : String

namespace RigidBody

/-- `toJSON` (RigidBody.js lines 348-367). -/
def toJSON (b : RigidBody) : BodyJSON :=
  { id := b.id
    type := b.type
    position := b.position
    velocity := b.velocity
    angle := b.angle
    angularVelocity := b.angularVelocity
    mass := b.mass
    restitution := b.restitution
    friction := b.friction
    shape := b.shape
    radius := b.radius
    width := b.width
    height := b.height
    isStatic := b.isStatic
    material := b.material
    color := b.color }

/-- `RigidBody.fromJSON` (RigidBody.js lines 369-388): reconstructs a body by
passing every serialized field to the constructor.  `ref` is the fresh identity
of the new allocation. -/
def fromJSON (ref : Nat) (d : BodyJSON) : RigidBody :=
  mkRigidBody ref
    { position := some d.position
      velocity := some d.velocity
      angle := some d.angle
      angularVelocity := some d.angularVelocity
      mass := some d.mass
      restitution := some d.restitution
      friction := some d.friction
      shape := some d.shape
      radius := some d.radius
      width := some d.width
      height := some d.height
      isStatic := some d.isStatic
      material := some d.material
      color := some d.color
      id := some d.id
      type := some d.type }

/-- `wake` (RigidBody.js lines 207-209). -/
def wake (b : RigidBody) : RigidBody := { b with isSleeping := false }

/-- `applyForce(force, point)` (RigidBody.js lines 100-108): a no-op on static
bodies, otherwise the force (with its optional application point) is queued.
The queued `timestamp` is omitted (see the file header). -/
def applyForce (b : RigidBody) (force : Vector2D) (point : Option Vector2D) :
    RigidBody :=
  if b.isStatic then b
  else { b with forces := b.forces ++ [(force, point)] }

/-- `applyImpulse(impulse, point)` (RigidBody.js lines 110-122): a no-op on
static bodies, otherwise the velocity changes by `impulse · inverseMass` and,
when a point is given, the angular velocity by
`(r × impulse) · inverseMomentOfInertia`. -/
def applyImpulse (b : RigidBody) (impulse : Vector2D) (point : Option Vector2D) :
    RigidBody :=
  if b.isStatic then b
  else
    let b := { b with velocity := b.velocity.add (impulse.multiply b.inverseMass) }
    match point with
    | some p =>
      let r := p.subtract b.position
      { b with angularVelocity :=
          b.angularVelocity + r.cross impulse * b.inverseMomentOfInertia }
    | none => b

end RigidBody

namespace RigidBody

/-- `resolveCollision`'s friction phase, `applyFriction(other, normal,
impulseScalar)` (RigidBody.js lines 267-290).  Returns the updated
`(this, other)` pair. -/
def applyFriction (a b : RigidBody) (normal : Vector2D) (impulseScalar : ℝ) :
    RigidBody × RigidBody :=
  let relativeVelocity := b.velocity.subtract a.velocity
  let tangent :=
    relativeVelocity.subtract (normal.multiply (relativeVelocity.dot normal))
  if tangent.isZero 0.0001 then (a, b)
  else
    let t := tangent.normalize
    let frictionCoefficient := Real.sqrt (a.friction * b.friction)
    let frictionImpulse :=
      -(relativeVelocity.dot t) / (a.inverseMass + b.inverseMass)
    let maxFriction := |impulseScalar| * frictionCoefficient
    let frictionImpulse := max (-maxFriction) (min maxFriction frictionImpulse)
    let frictionVector := t.multiply frictionImpulse
    (if a.isStatic then a
     else { a with velocity :=
              a.velocity.subtract (frictionVector.multiply a.inverseMass) },
     if b.isStatic then b
     else { b with velocity :=
              b.velocity.add (frictionVector.multiply b.inverseMass) })

/-- The transient contact record produced by the narrow phase (normal, depth,
contact point). -/
structure Collision where
  normal : Vector2D
  depth : ℝ
  contactPoint : Vector2D

/-- The positional phase of `resolveCollision` ("Separate objects",
RigidBody.js lines 221-232): when the combined inverse mass is positive, the
separation vector `normal · (depth / totalInverseMass)` is *added* to
`this.position` (scaled by `this.inverseMass`) and *subtracted* from
`other.position` (scaled by `other.inverseMass`), skipping static bodies. -/
def separateObjects (a b : RigidBody) (normal : Vector2D) (depth : ℝ) :
    RigidBody × RigidBody :=
  let totalInverseMass := a.inverseMass + b.inverseMass
  if totalInverseMass > 0 then
    let separationVector := normal.multiply (depth / totalInverseMass)
    (if a.isStatic then a
     else { a with position := a.position.add (separationVector.multiply a.inverseMass) },
     if b.isStatic then b
     else { b with position := b.position.subtract (separationVector.multiply b.inverseMass) })
  else (a, b)

/-- `resolveCollision(other, collision)` (RigidBody.js lines 212-265), the
receiver being the first component.  Returns the updated `(this, other)` pair:
early return for a static-static pair; both bodies woken; positional
separation (`separateObjects`); early return when the relative velocity along
the normal is separating; restitution impulse with `e = min(restitutions)`;
friction (`applyFriction`); collision flags and normals recorded. -/
def resolveCollision (a b : RigidBody) (collision : Collision) :
    RigidBody × RigidBody :=
  if a.isStatic ∧ b.isStatic then (a, b)
  else
    let a := a.wake
    let b := b.wake
    let normal := collision.normal
    let depth := collision.depth
    let totalInverseMass := a.inverseMass + b.inverseMass
    let sep := separateObjects a b normal depth
    let a := sep.1
    let b := sep.2
    let relativeVelocity := b.velocity.subtract a.velocity
    let velocityAlongNormal := relativeVelocity.dot normal
    if velocityAlongNormal > 0 then (a, b)
    else
      let e := min a.restitution b.restitution
      let impulseScalar := -(1 + e) * velocityAlongNormal / totalInverseMass
      let impulse := normal.multiply impulseScalar
      let a :=
        if a.isStatic then a
        else { a with velocity := a.velocity.subtract (impulse.multiply a.inverseMass) }
      let b :=
        if b.isStatic then b
        else { b with velocity := b.velocity.add (impulse.multiply b.inverseMass) }
      let fr := applyFriction a b normal impulseScalar
      ({ fr.1 with colliding := true, collisionNormal := normal },
       { fr.2 with colliding := true, collisionNormal := normal.multiply (-1) })

/-- `getMomentum` (RigidBody.js lines 302-304): `velocity · mass`. -/
def getMomentum (b : RigidBody) : Vector2D := b.velocity.multiply b.mass

end RigidBody

/-- The solver settings record (PhysicsEngine.js lines 32-38). -/
structure EngineSettings where
  positionIterations : ℝ
  velocityIterations : ℝ
  warmStarting : Bool
  allowSleep : Bool
  continuousPhysics : Bool

/-- The world state of `PhysicsEngine` (PhysicsEngine.js constructor) restricted
to the fields the serialization and stepping claims touch.  `nextRef` is the
allocator for fresh object identities (see the file header); every body in
`bodies` has `ref < nextRef`. -/
structure PhysicsEngine where
  gravity : Vector2D
  airDensity : ℝ
  timeScale : ℝ
  bounds : Bounds
  bodies : List RigidBody
  settings : EngineSettings
  nextRef : Nat

namespace PhysicsEngine

/-- `addBody(body)` (PhysicsEngine.js lines 55-61): a duplicate add
(`this.bodies.includes(body)`, reference equality) is a no-op, otherwise the
body is appended (and a `bodyAdded` event is emitted, not tracked here). -/
def addBody (e : PhysicsEngine) (b : RigidBody) : PhysicsEngine :=
  if e.bodies.any (fun b' => b'.ref = b.ref) then e
  else { e with bodies := e.bodies ++ [b] }

/-- `clear()` (PhysicsEngine.js lines 352-357): empties the body, constraint and
force collections. -/
def clear (e : PhysicsEngine) : PhysicsEngine := { e with bodies := [] }

/-- The world record produced by `serialize()` (PhysicsEngine.js lines
413-422). -/
structure WorldJSON where
  gravity : Vector2D
  airDensity : ℝ
  timeScale : ℝ
  bounds : Bounds
  bodies : List BodyJSON
  settings : EngineSettings

/-- `serialize()` (PhysicsEngine.js lines 413-422). -/
def serialize (e : PhysicsEngine) : WorldJSON :=
  { gravity := e.gravity
    airDensity := e.airDensity
    timeScale := e.timeScale
    bounds := e.bounds
    bodies := e.bodies.map RigidBody.toJSON
    settings := e.settings }

/-- The body-restoring loop of `deserialize` (PhysicsEngine.js lines 432-435):
each serialized body is rebuilt with `RigidBody.fromJSON` (a fresh allocation)
and added with `addBody`. -/
def addAll : PhysicsEngine → List BodyJSON → PhysicsEngine
  | e, [] => e
  | e, d :: ds =>
    addAll ((({ e with nextRef := e.nextRef + 1 } : PhysicsEngine)).addBody
      (RigidBody.fromJSON e.nextRef d)) ds

/-- `deserialize(data)` (PhysicsEngine.js lines 424-436): clears the world,
restores the scalar fields and bounds, merges the settings, then rebuilds and
adds every serialized body. -/
def deserialize (e : PhysicsEngine) (data : WorldJSON) : PhysicsEngine :=
  let e := e.clear
  let e :=
    { e with
      gravity := data.gravity
      airDensity := data.airDensity
      timeScale := data.timeScale
      bounds := data.bounds
      settings := data.settings }
  addAll e data.bodies

end PhysicsEngine

namespace PhysicsEngine

/-- The left-bound block of `enforceBounds` (PhysicsEngine.js lines 214-220).
`wb` is the world bounds, `bounds` the AABB computed once from the body before
any correction (the source reads it once, so later blocks test stale bounds),
`st` the running `(body, corrected)` state. -/
def boundSideLeft (wb bounds : Bounds) (st : RigidBody × Bool) : RigidBody × Bool :=
  if bounds.left < wb.left then
    let b := st.1
    let b := { b with position := ⟨wb.left + (b.position.x - bounds.left), b.position.y⟩ }
    let b :=
      if b.velocity.x < (0:ℝ) then
        { b with velocity := ⟨b.velocity.x * -b.restitution, b.velocity.y⟩ }
      else b
    (b, true)
  else st

/-- The right-bound block (PhysicsEngine.js lines 223-229). -/
def boundSideRight (wb bounds : Bounds) (st : RigidBody × Bool) : RigidBody × Bool :=
  if bounds.right > wb.right then
    let b := st.1
    let b := { b with position := ⟨wb.right - (bounds.right - b.position.x), b.position.y⟩ }
    let b :=
      if b.velocity.x > (0:ℝ) then
        { b with velocity := ⟨b.velocity.x * -b.restitution, b.velocity.y⟩ }
      else b
    (b, true)
  else st

/-- The bottom-bound block (PhysicsEngine.js lines 232-238). -/
def boundSideBottom (wb bounds : Bounds) (st : RigidBody × Bool) : RigidBody × Bool :=
  if bounds.bottom < wb.bottom then
    let b := st.1
    let b := { b with position := ⟨b.position.x, wb.bottom + (b.position.y - bounds.bottom)⟩ }
    let b :=
      if b.velocity.y < (0:ℝ) then
        { b with velocity := ⟨b.velocity.x, b.velocity.y * -b.restitution⟩ }
      else b
    (b, true)
  else st

/-- The top-bound block (PhysicsEngine.js lines 241-247). -/
def boundSideTop (wb bounds : Bounds) (st : RigidBody × Bool) : RigidBody × Bool :=
  if bounds.top > wb.top then
    let b := st.1
    let b := { b with position := ⟨b.position.x, wb.top - (bounds.top - b.position.y)⟩ }
    let b :=
      if b.velocity.y > (0:ℝ) then
        { b with velocity := ⟨b.velocity.x, b.velocity.y * -b.restitution⟩ }
      else b
    (b, true)
  else st

/-- The per-body block of `enforceBounds` (PhysicsEngine.js lines 210-251) for
one non-static body: the four side blocks run in source order on the
`(body, corrected)` state, all testing the AABB computed once before any
correction, while position updates read the current (possibly already
corrected) position, exactly as in the source. -/
def enforceBoundsBody (wb : Bounds) (body : RigidBody) : RigidBody × Bool :=
  let bounds := body.getBounds
  boundSideTop wb bounds
    (boundSideBottom wb bounds
      (boundSideRight wb bounds
        (boundSideLeft wb bounds (body, false))))

/-- `enforceBounds()` (PhysicsEngine.js lines 206-253): every non-static body is
run through `enforceBoundsBody`; the second component collects the payloads of
the emitted `boundsCollision` events (one per corrected body, carrying that
body), in body order. -/
def enforceBounds (e : PhysicsEngine) : PhysicsEngine × List RigidBody :=
  let step := fun (acc : List RigidBody × List RigidBody) (body : RigidBody) =>
    if body.isStatic then (acc.1 ++ [body], acc.2)
    else
      let r := enforceBoundsBody e.bounds body
      (acc.1 ++ [r.1], if r.2 then acc.2 ++ [r.1] else acc.2)
  let res := e.bodies.foldl step ([], [])
  ({ e with bodies := res.1 }, res.2)

end PhysicsEngine

/-- The event-listener loop of `emit` (PhysicsEngine.js lines 377-388).  A
callback receives the event payload (`δ`) and runs against the ambient mutable
state (`σ`); a JavaScript `throw` is an `Except.error`.  The loop mirrors the
source's `for … try { callback(data) } catch { console.error(…) }`: a throwing
callback leaves the state it was given and appends one logged error, and the
loop continues with the remaining callbacks.  The result is the final state
together with the `console.error` log, in order. -/
def emitCallbacks {δ σ ε : Type} (data : δ) :
    List (δ → σ → Except ε σ) → σ → σ × List ε
  | [], s => (s, [])
  | cb :: rest, s =>
    match cb data s with
    | Except.ok s' => emitCallbacks data rest s'
    | Except.error err =>
      let r := emitCallbacks data rest s
      (r.1, err :: r.2)

/-- `emit(event, data)` (PhysicsEngine.js lines 377-388): looks the event name
up in the listener map (`this.eventListeners`, an association of event names to
callback arrays) and runs every registered callback through the
try/catch loop; an unknown event is a no-op. -/
def emitEvent {δ σ ε : Type} (listeners : List (String × List (δ → σ → Except ε σ)))
    (event : String) (data : δ) (s : σ) : σ × List ε :=
  match listeners.lookup event with
  | none => (s, [])
  | some cbs => emitCallbacks data cbs s

namespace CollisionDetection

/-- `aabbOverlap(bodyA, bodyB)` (collision-detection file lines 70-78). -/
def aabbOverlap (a b : RigidBody) : Prop :=
  let boundsA := a.getBounds
  let boundsB := b.getBounds
  ¬(boundsA.right < boundsB.left ∨ boundsA.left > boundsB.right ∨
    boundsA.top < boundsB.bottom ∨ boundsA.bottom > boundsB.top)

instance (a b : RigidBody) : Decidable (aabbOverlap a b) := by
  unfold CollisionDetection.aabbOverlap; exact instDecidableNot

/-- `circleCircleCollision` (collision-detection file lines 107-131): compares
the centre distance to the radius sum; coincident centres fall back to the
fixed normal `(1, 0)` with depth equal to the radius sum. -/
def circleCircleCollision (circleA circleB : RigidBody) :
    Option RigidBody.Collision :=
  let distance := circleA.position.dist circleB.position
  let radiusSum := circleA.radius + circleB.radius
  if distance > radiusSum then none
  else
    let normal :=
      if distance = 0 then (⟨1, 0⟩ : Vector2D)
      else (circleB.position.subtract circleA.position).normalize
    let depth := if distance = 0 then radiusSum else radiusSum - distance
    some ⟨normal, depth, circleA.position.add (normal.multiply circleA.radius)⟩

/-- `circleRectangleCollision` (collision-detection file lines 134-182): clamps
the circle centre into the rectangle's AABB; a centre strictly inside the
rectangle derives the normal from the nearest edge. -/
def circleRectangleCollision (circle rectangle : RigidBody) :
    Option RigidBody.Collision :=
  let bounds := rectangle.getBounds
  let closestPoint : Vector2D :=
    ⟨max bounds.left (min circle.position.x bounds.right),
     max bounds.bottom (min circle.position.y bounds.top)⟩
  let distance := circle.position.dist closestPoint
  if distance > circle.radius then none
  else if distance = 0 then
    let distToLeft := circle.position.x - bounds.left
    let distToRight := bounds.right - circle.position.x
    let distToBottom := circle.position.y - bounds.bottom
    let distToTop := bounds.top - circle.position.y
    let minDist := min (min distToLeft distToRight) (min distToBottom distToTop)
    let nd : Vector2D × ℝ :=
      if minDist = distToLeft then (⟨-1, 0⟩, circle.radius + distToLeft)
      else if minDist = distToRight then (⟨1, 0⟩, circle.radius + distToRight)
      else if minDist = distToBottom then (⟨0, -1⟩, circle.radius + distToBottom)
      else (⟨0, 1⟩, circle.radius + distToTop)
    some ⟨nd.1, nd.2, closestPoint⟩
  else
    some ⟨(circle.position.subtract closestPoint).normalize,
          circle.radius - distance, closestPoint⟩

/-- `rectangleRectangleCollision` (collision-detection file lines 185-226):
axis-aligned overlap test; the axis with the smaller overlap separates, with
the sign given by the relative centre positions. -/
def rectangleRectangleCollision (rectA rectB : RigidBody) :
    Option RigidBody.Collision :=
  let boundsA := rectA.getBounds
  let boundsB := rectB.getBounds
  let overlapX := min boundsA.right boundsB.right - max boundsA.left boundsB.left
  let overlapY := min boundsA.top boundsB.top - max boundsA.bottom boundsB.bottom
  if overlapX ≤ 0 ∨ overlapY ≤ 0 then none
  else
    let nd : Vector2D × ℝ :=
      if overlapX < overlapY then
        (if rectA.position.x < rectB.position.x then ⟨-1, 0⟩ else ⟨1, 0⟩, overlapX)
      else
        (if rectA.position.y < rectB.position.y then ⟨0, -1⟩ else ⟨0, 1⟩, overlapY)
    some ⟨nd.1, nd.2,
          ⟨(max boundsA.left boundsB.left + min boundsA.right boundsB.right) / 2,
           (max boundsA.bottom boundsB.bottom + min boundsA.top boundsB.top) / 2⟩⟩

/-- `narrowPhase(bodyA, bodyB)` (collision-detection file lines 81-104): a
static-static pair is skipped before any shape dispatch; rectangle/circle
delegates to circle/rectangle with the normal negated; an unrecognized shape
pair yields no contact. -/
def narrowPhase (bodyA bodyB : RigidBody) : Option RigidBody.Collision :=
  if bodyA.isStatic ∧ bodyB.isStatic then none
  else if bodyA.shape = "circle" ∧ bodyB.shape = "circle" then
    circleCircleCollision bodyA bodyB
  else if bodyA.shape = "circle" ∧ bodyB.shape = "rectangle" then
    circleRectangleCollision bodyA bodyB
  else if bodyA.shape = "rectangle" ∧ bodyB.shape = "circle" then
    (circleRectangleCollision bodyB bodyA).map
      (fun c => { c with normal := c.normal.multiply (-1) })
  else if bodyA.shape = "rectangle" ∧ bodyB.shape = "rectangle" then
    rectangleRectangleCollision bodyA bodyB
  else none

end CollisionDetection

namespace SpatialGrid

/-- The grid cell size: `new SpatialGrid(100)` in the `CollisionDetection`
constructor (collision-detection file line 7). -/
def cellSize : ℝ := 100

/-- The spatial grid: a mapping from integer cell coordinates to the list of
bodies inserted into that cell, in insertion order (collision-detection file
lines 332-353).  `clear()` is the constant-empty grid. -/
def Grid : Type := ℤ × ℤ → List RigidBody

/-- The cleared grid (`clear()`, collision-detection file lines 339-341). -/
def emptyGrid : Grid := fun _ => []

/-- The inclusive integer range `[a..b]` traversed by
`for (let x = minX; x <= maxX; x++)`. -/
def intRange (a b : ℤ) : List ℤ := (List.range (b + 1 - a).toNat).map (fun i => a + i)

/-- `getCells(body)` (collision-detection file lines 381-397): all integer
cells spanned by the body's AABB, x-major as in the source's nested loops. -/
def getCells (b : RigidBody) : List (ℤ × ℤ) :=
  let bounds := b.getBounds
  let minX := ⌊bounds.left / cellSize⌋
  let maxX := ⌊bounds.right / cellSize⌋
  let minY := ⌊bounds.bottom / cellSize⌋
  let maxY := ⌊bounds.top / cellSize⌋
  (intRange minX maxX).flatMap (fun x => (intRange minY maxY).map (fun y => (x, y)))

/-- `insert(body)` (collision-detection file lines 344-353): the body is pushed
onto every cell its AABB spans. -/
def insert (g : Grid) (b : RigidBody) : Grid :=
  fun c => if c ∈ getCells b then g c ++ [b] else g c

/-- De-duplication by object identity, keeping first occurrences, as performed
by collecting bodies into a JavaScript `Set` and converting back to an array
(insertion order). -/
def dedupByRef : List Nat → List RigidBody → List RigidBody
  | _, [] => []
  | seen, b :: rest =>
    if b.ref ∈ seen then dedupByRef seen rest
    else b :: dedupByRef (b.ref :: seen) rest

/-- `query(body)` (collision-detection file lines 356-369): the de-duplicated
union (a `Set`, insertion order) of the lists of all cells spanned by the
body's AABB. -/
def query (g : Grid) (b : RigidBody) : List RigidBody :=
  dedupByRef [] ((getCells b).flatMap g)

end SpatialGrid

namespace CollisionDetection

/-- The unordered pair key `body.id < other.id ? id-otherId : otherId-id`
(collision-detection file line 55). -/
def pairKey (a b : RigidBody) : String :=
  if a.id < b.id then a.id ++ "-" ++ b.id else b.id ++ "-" ++ a.id

/-- Inner loop of `broadPhase` (collision-detection file lines 51-63) over the
grid-query results for one body: skips the body itself (reference equality) and
already-checked pair keys, records the key, and keeps the pair when the AABBs
overlap.  Returns the updated checked-key set and the pairs, in order. -/
def bpInner (body : RigidBody) :
    List RigidBody → List String → List String × List (RigidBody × RigidBody)
  | [], checked => (checked, [])
  | other :: rest, checked =>
    if body.ref = other.ref then bpInner body rest checked
    else if pairKey body other ∈ checked then bpInner body rest checked
    else
      let checked := pairKey body other :: checked
      let r := bpInner body rest checked
      if aabbOverlap body other then (r.1, (body, other) :: r.2) else r

/-- Outer loop of `broadPhase` (collision-detection file lines 44-67). -/
def bpOuter (g : SpatialGrid.Grid) :
    List RigidBody → List String → List (RigidBody × RigidBody)
  | [], _ => []
  | b :: bs, checked =>
    let r := bpInner b (SpatialGrid.query g b) checked
    r.2 ++ bpOuter g bs r.1

/-- `broadPhase(bodies)` (collision-detection file lines 44-67). -/
def broadPhase (g : SpatialGrid.Grid) (bodies : List RigidBody) :
    List (RigidBody × RigidBody) :=
  bpOuter g bodies []

/-- The collision-state reset applied to every body at the start of
`detectCollisions` (collision-detection file lines 15-19). -/
def resetCollisionState (b : RigidBody) : RigidBody :=
  { b with colliding := false, collisionNormal := Vector2D.zero, collisionDepth := 0 }

/-- One entry of the collision-pair list returned by `detectCollisions`
(collision-detection file lines 32-36). -/
structure CollisionPair where
  bodyA : RigidBody
  bodyB : RigidBody
  collision : RigidBody.Collision

/-- `detectCollisions(bodies)` (collision-detection file lines 11-41): resets
the collision scratch state, rebuilds the grid, broad-phases, then keeps every
potential pair whose narrow phase produces a contact. -/
def detectCollisions (bodies : List RigidBody) : List CollisionPair :=
  let bodies := bodies.map resetCollisionState
  let grid := bodies.foldl SpatialGrid.insert SpatialGrid.emptyGrid
  let potentialPairs := broadPhase grid bodies
  potentialPairs.filterMap
    (fun p => (narrowPhase p.1 p.2).map (fun c => ⟨p.1, p.2, c⟩))

end CollisionDetection

/-- The payloads of the `collision` events emitted by `handleCollisions`
(PhysicsEngine.js lines 191-203): one event per pair returned by
`detectCollisions`, emitted in order, carrying that pair, before the pair is
resolved. -/
def PhysicsEngine.collisionEvents (e : PhysicsEngine) :
    List CollisionDetection.CollisionPair :=
  CollisionDetection.detectCollisions e.bodies

namespace CollisionDetection

/-- A raycast hit record (collision-detection file lines 278-283). -/
structure RaycastHit where
  body : RigidBody
  point : Vector2D
  normal : Vector2D
  distance : ℝ

/-- `raycastCircle(origin, direction, circle, maxDistance)` (collision-detection
file lines 259-284): projection of the centre onto the ray plus the chord
half-length; rejects rays pointing away, misses, and intersections with
`t < 0` or `t > maxDistance`. -/
def raycastCircle (origin direction : Vector2D) (circle : RigidBody)
    (maxDistance : ℝ) : Option RaycastHit :=
  let toCircle := circle.position.subtract origin
  let projectionLength := toCircle.dot direction
  if projectionLength < 0 then none
  else
    let closestPoint := origin.add (direction.multiply projectionLength)
    let distanceToCenter := circle.position.dist closestPoint
    if distanceToCenter > circle.radius then none
    else
      let halfChord :=
        Real.sqrt (circle.radius * circle.radius - distanceToCenter * distanceToCenter)
      let intersectionDistance := projectionLength - halfChord
      if intersectionDistance < 0 ∨ intersectionDistance > maxDistance then none
      else
        let hitPoint := origin.add (direction.multiply intersectionDistance)
        some ⟨circle, hitPoint, (hitPoint.subtract circle.position).normalize,
              intersectionDistance⟩

/-- `raycastRectangle(origin, direction, rectangle, maxDistance)`
(collision-detection file lines 287-326): slab intersection against the AABB.
JavaScript divides by `direction.x`/`direction.y` even when they are zero,
producing `±Infinity`; the real-number embedding uses Lean's `x / 0 = 0`
convention there, so only properties that do not depend on the behaviour of
axis-parallel rays are claimed about this function. -/
def raycastRectangle (origin direction : Vector2D) (rectangle : RigidBody)
    (maxDistance : ℝ) : Option RaycastHit :=
  let bounds := rectangle.getBounds
  let tMin := (bounds.left - origin.x) / direction.x
  let tMax := (bounds.right - origin.x) / direction.x
  let tyMin := (bounds.bottom - origin.y) / direction.y
  let tyMax := (bounds.top - origin.y) / direction.y
  let t1 := min tMin tMax
  let t2 := max tMin tMax
  let ty1 := min tyMin tyMax
  let ty2 := max tyMin tyMax
  let tNear := max t1 ty1
  let tFar := min t2 ty2
  if tNear > tFar ∨ tNear < 0 ∨ tNear > maxDistance then none
  else
    let hitPoint := origin.add (direction.multiply tNear)
    let normal : Vector2D :=
      if |hitPoint.x - bounds.left| < 0.001 then ⟨-1, 0⟩
      else if |hitPoint.x - bounds.right| < 0.001 then ⟨1, 0⟩
      else if |hitPoint.y - bounds.bottom| < 0.001 then ⟨0, -1⟩
      else ⟨0, 1⟩
    some ⟨rectangle, hitPoint, normal, tNear⟩

/-- `raycastBody` (collision-detection file lines 247-256): shape dispatch; an
unrecognized shape yields no hit. -/
def raycastBody (origin direction : Vector2D) (body : RigidBody)
    (maxDistance : ℝ) : Option RaycastHit :=
  if body.shape = "circle" then raycastCircle origin direction body maxDistance
  else if body.shape = "rectangle" then
    raycastRectangle origin direction body maxDistance
  else none

/-- The body loop of `raycast` (collision-detection file lines 235-241): each
body is tested against the current closest distance; a strictly closer hit
replaces the best hit and shrinks the cutoff. -/
def raycastLoop (origin direction : Vector2D) :
    List RigidBody → Option RaycastHit → ℝ → Option RaycastHit
  | [], best, _ => best
  | b :: rest, best, closestDistance =>
    match raycastBody origin direction b closestDistance with
    | some hit =>
      if hit.distance < closestDistance then
        raycastLoop origin direction rest (some hit) hit.distance
      else raycastLoop origin direction rest best closestDistance
    | none => raycastLoop origin direction rest best closestDistance

/-- `raycast(origin, direction, maxDistance, bodies)` (collision-detection file
lines 229-244). -/
def raycast (origin direction : Vector2D) (maxDistance : ℝ)
    (bodies : List RigidBody) : Option RaycastHit :=
  raycastLoop origin direction bodies none maxDistance

/-- Analysis helper: the cutoff-free ray/body candidate — `raycastBody` with
the `maxDistance` rejection removed but every geometric rejection (including
`t < 0`) kept.  `raycastBody_eq_candidate` below proves that `raycastBody` is
this candidate filtered by the cutoff, which is how the claims about closest
hits are stated. -/
def rayCandidate (origin direction : Vector2D) (body : RigidBody) :
    Option RaycastHit :=
  if body.shape = "circle" then
    let toCircle := body.position.subtract origin
    let projectionLength := toCircle.dot direction
    if projectionLength < 0 then none
    else
      let closestPoint := origin.add (direction.multiply projectionLength)
      let distanceToCenter := body.position.dist closestPoint
      if distanceToCenter > body.radius then none
      else
        let halfChord :=
          Real.sqrt (body.radius * body.radius - distanceToCenter * distanceToCenter)
        let intersectionDistance := projectionLength - halfChord
        if intersectionDistance < 0 then none
        else
          let hitPoint := origin.add (direction.multiply intersectionDistance)
          some ⟨body, hitPoint, (hitPoint.subtract body.position).normalize,
                intersectionDistance⟩
  else if body.shape = "rectangle" then
    let bounds := body.getBounds
    let tMin := (bounds.left - origin.x) / direction.x
    let tMax := (bounds.right - origin.x) / direction.x
    let tyMin := (bounds.bottom - origin.y) / direction.y
    let tyMax := (bounds.top - origin.y) / direction.y
    let t1 := min tMin tMax
    let t2 := max tMin tMax
    let ty1 := min tyMin tyMax
    let ty2 := max tyMin tyMax
    let tNear := max t1 ty1
    let tFar := min t2 ty2
    if tNear > tFar ∨ tNear < 0 then none
    else
      let hitPoint := origin.add (direction.multiply tNear)
      let normal : Vector2D :=
        if |hitPoint.x - bounds.left| < 0.001 then ⟨-1, 0⟩
        else if |hitPoint.x - bounds.right| < 0.001 then ⟨1, 0⟩
        else if |hitPoint.y - bounds.bottom| < 0.001 then ⟨0, -1⟩
        else ⟨0, 1⟩
      some ⟨body, hitPoint, normal, tNear⟩
  else none

end CollisionDetection

/-- A fully explicit unit-mass dynamic circle body used as the concrete probe
input of several witnesses (its fields are those the `RigidBody` constructor
produces for an empty options record, with `id` and `ref` fixed). -/
def probeBody : RigidBody :=
  { ref := 0
    position := ⟨0, 0⟩
    velocity := ⟨0, 0⟩
    acceleration := ⟨0, 0⟩
    mass := 1
    inverseMass := 1
    restitution := 0.8
    friction := 0.1
    drag := 0.001
    radius := 10
    shape := "circle"
    width := 20
    height := 20
    isStatic := false
    isKinematic := false
    isSleeping := false
    sleepThreshold := 0.01
    forces := []
    torque := 0
    angularVelocity := 0
    angle := 0
    angularDrag := 0.01
    density := 1
    material := "default"
    color := "#ffffff"
    strokeColor := "#000000"
    strokeWidth := 1
    id := "a"
    type := "rigidbody"
    tags := []
    previousPosition := ⟨0, 0⟩
    netForce := ⟨0, 0⟩
    netTorque := 0
    colliding := false
    collisionNormal := ⟨0, 0⟩
    collisionDepth := 0
    momentOfInertia := 50
    inverseMomentOfInertia := 1 / 50 }

/-- The per-body agreement the serialization round-trip claim asks for: the
second body has identical position, velocity, angle, angular velocity, mass,
restitution, friction, shape, dimensions (radius/width/height), `isStatic`
flag, material and color. -/
def matchFields (a c : RigidBody) : Prop :=
  c.position = a.position ∧ c.velocity = a.velocity ∧ c.angle = a.angle ∧
  c.angularVelocity = a.angularVelocity ∧ c.mass = a.mass ∧
  c.restitution = a.restitution ∧ c.friction = a.friction ∧
  c.shape = a.shape ∧ c.radius = a.radius ∧ c.width = a.width ∧
  c.height = a.height ∧ c.isStatic = a.isStatic ∧
  c.material = a.material ∧ c.color = a.color

/-- The invariant every body reachable through the `RigidBody` constructor
satisfies (`mkRigidBody_good` below), and the engine only mutates position,
velocity, angle, angular velocity, sleep and collision scratch state — never
these fields.  It is exactly what shields the serialized values from the
constructor's JavaScript `||` defaulting on falsy (zero / empty) values during
`fromJSON`. -/
def goodBody (b : RigidBody) : Prop :=
  b.mass ≠ 0 ∧ b.restitution ≠ 0 ∧ b.friction ≠ 0 ∧ b.radius ≠ 0 ∧
  b.width ≠ 0 ∧ b.height ≠ 0 ∧ b.shape ≠ "" ∧ b.material ≠ "" ∧
  b.color ≠ "" ∧ (b.mass ≤ 0 → b.isStatic = true)

/-- The bodies `addAll` produces, rebuilt with consecutive fresh refs. -/
def addedList : Nat → List BodyJSON → List RigidBody
  | _, [] => []
  | r, d :: ds => RigidBody.fromJSON r d :: addedList (r + 1) ds

/-- A one-body world for the round-trip witness. -/
def c1World : PhysicsEngine :=
  { gravity := ⟨0, -9.81⟩
    airDensity := 1.225
    timeScale := 1
    bounds := ⟨-1000, 1000, 1000, -1000⟩
    bodies := [mkRigidBody 0 {}]
    settings := ⟨3, 8, true, true, true⟩
    nextRef := 1 }

/-- Concrete listeners for the C6 witness: two counting listeners and one that
always throws. -/
def c6ok1 : Nat → Nat → Except Nat Nat := fun d t => Except.ok (t + d)

def c6ok2 : Nat → Nat → Except Nat Nat := fun d t => Except.ok (t * 10 + d)

def c6bad : Nat → Nat → Except Nat Nat := fun _ _ => Except.error 7

def c6Listeners : List (String × List (Nat → Nat → Except Nat Nat)) :=
  [("collision", [c6ok1, c6bad, c6ok2])]

/-- Two overlapping static circles for the C10 witness. -/
def c10A : RigidBody := { probeBody with isStatic := true }

def c10B : RigidBody :=
  { probeBody with ref := 1, id := "b", isStatic := true, position := ⟨5, 0⟩ }

/-- The two equal circles of the C2 failing input: unit masses, radius 10,
centres at `(0,0)` and `(10,0)` (overlap depth 10). -/
def c2A : RigidBody := probeBody

def c2B : RigidBody := { probeBody with ref := 1, id := "b", position := ⟨10, 0⟩ }

/-- Concrete bodies of the C3 witness: a moving and a resting unit-mass
circle. -/
def c3A : RigidBody := { probeBody with velocity := ⟨1, 0⟩ }

def c3B : RigidBody := { probeBody with ref := 1, id := "b", position := ⟨15, 0⟩ }

/-- The default world bounds (PhysicsEngine.js lines 44-49). -/
def c7wb : Bounds := ⟨-1000, 1000, 1000, -1000⟩

/-- A circle past the left bound but moving inward (to the right). -/
def c7body : RigidBody := { probeBody with position := ⟨-1005, 0⟩, velocity := ⟨5, 0⟩ }

/-- The static circle of the spec's raycast scenario: centre `(100, 0)`,
radius 10. -/
def c8circle : RigidBody := { probeBody with position := ⟨100, 0⟩, isStatic := true }

/-- The hit the scenario expects: distance 90, normal `(-1, 0)`. -/
def c8hit : CollisionDetection.RaycastHit := ⟨c8circle, ⟨90, 0⟩, ⟨-1, 0⟩, 90⟩

theorem RigidBody.getBoundsFuel_known (b : RigidBody) (h : b.knownShape) (fuel : Nat) :
    getBoundsFuel (fuel + 1) b = some b.getBounds := by
  rcases h with h | h <;> simp [RigidBody.getBoundsFuel, RigidBody.getBounds, h]

namespace RigidBody

theorem updateMomentOfInertia_core (b : RigidBody) :
    b.updateMomentOfInertia.position = b.position ∧
    b.updateMomentOfInertia.velocity = b.velocity ∧
    b.updateMomentOfInertia.angle = b.angle ∧
    b.updateMomentOfInertia.angularVelocity = b.angularVelocity ∧
    b.updateMomentOfInertia.mass = b.mass ∧
    b.updateMomentOfInertia.inverseMass = b.inverseMass ∧
    b.updateMomentOfInertia.restitution = b.restitution ∧
    b.updateMomentOfInertia.friction = b.friction ∧
    b.updateMomentOfInertia.shape = b.shape ∧
    b.updateMomentOfInertia.radius = b.radius ∧
    b.updateMomentOfInertia.width = b.width ∧
    b.updateMomentOfInertia.height = b.height ∧
    b.updateMomentOfInertia.isStatic = b.isStatic ∧
    b.updateMomentOfInertia.isSleeping = b.isSleeping ∧
    b.updateMomentOfInertia.material = b.material ∧
    b.updateMomentOfInertia.color = b.color ∧
    b.updateMomentOfInertia.id = b.id ∧
    b.updateMomentOfInertia.type = b.type ∧
    b.updateMomentOfInertia.ref = b.ref := by
  unfold RigidBody.updateMomentOfInertia
  split <;> simp

theorem updateDerivedProperties_fields (b : RigidBody) :
    b.updateDerivedProperties.position = b.position ∧
    b.updateDerivedProperties.velocity = b.velocity ∧
    b.updateDerivedProperties.angle = b.angle ∧
    b.updateDerivedProperties.angularVelocity = b.angularVelocity ∧
    b.updateDerivedProperties.mass = b.mass ∧
    b.updateDerivedProperties.restitution = b.restitution ∧
    b.updateDerivedProperties.friction = b.friction ∧
    b.updateDerivedProperties.shape = b.shape ∧
    b.updateDerivedProperties.radius = b.radius ∧
    b.updateDerivedProperties.width = b.width ∧
    b.updateDerivedProperties.height = b.height ∧
    b.updateDerivedProperties.isSleeping = b.isSleeping ∧
    b.updateDerivedProperties.material = b.material ∧
    b.updateDerivedProperties.color = b.color ∧
    b.updateDerivedProperties.id = b.id ∧
    b.updateDerivedProperties.type = b.type ∧
    b.updateDerivedProperties.ref = b.ref := by
  unfold RigidBody.updateDerivedProperties
  split <;> simp [RigidBody.updateMomentOfInertia_core]

theorem updateDerivedProperties_isStatic (b : RigidBody) :
    b.updateDerivedProperties.isStatic = (if b.mass ≤ 0 then true else b.isStatic) := by
  unfold RigidBody.updateDerivedProperties
  split <;> simp_all [RigidBody.updateMomentOfInertia_core]

theorem updateDerivedProperties_inverseMass (b : RigidBody) :
    b.updateDerivedProperties.inverseMass = (if b.mass ≤ 0 then 0 else 1 / b.mass) := by
  unfold RigidBody.updateDerivedProperties
  split <;> simp_all [RigidBody.updateMomentOfInertia_core]

end RigidBody

/-- C9: `getBounds` terminates with the axis-aligned box for every body whose
shape is `circle` or `rectangle` (any positive fuel suffices and yields the
box), and for a body with any other shape value the `default` branch calls
`getBounds` on the same receiver unconditionally, so the call never terminates
(every amount of fuel is exhausted without producing a result). -/
theorem C9_getBounds_termination (b : RigidBody) :
    (b.knownShape →
      ∀ fuel : Nat, RigidBody.getBoundsFuel (fuel + 1) b = some b.getBounds) ∧
    (¬b.knownShape → ∀ fuel : Nat, RigidBody.getBoundsFuel fuel b = none) := by
  constructor
  · intro h fuel
    exact RigidBody.getBoundsFuel_known b h fuel
  · intro h fuel
    induction fuel with
    | zero => rfl
    | succ n ih =>
      have h1 : b.shape ≠ "circle" := fun hc => h (Or.inl hc)
      have h2 : b.shape ≠ "rectangle" := fun hc => h (Or.inr hc)
      unfold RigidBody.getBoundsFuel
      split
      · simp_all
      · simp_all
      · exact ih

/-- C9 witness: a concrete circle body gets its box at once, and a concrete
body with the unrecognized shape value `polygon` gets none for any amount of
fuel shown here. -/
theorem C9_witness :
    RigidBody.getBoundsFuel 5 probeBody = some probeBody.getBounds ∧
    RigidBody.getBoundsFuel 7 { probeBody with shape := "polygon" } = none := by
  constructor
  · exact (C9_getBounds_termination probeBody).1 (Or.inl rfl) 4
  · exact (C9_getBounds_termination { probeBody with shape := "polygon" }).2
      (by intro h; rcases h with h | h <;> simp [probeBody] at h) 7

/-- C4 (amended): `applyForce` and `applyImpulse` leave `isSleeping` exactly as
it was — neither contains a `wake` call — while the separate `wake` method is
what clears the flag (and is invoked only by `resolveCollision` within the
body code). -/
theorem C4_force_impulse_do_not_wake (b : RigidBody) (f imp : Vector2D)
    (p1 p2 : Option Vector2D) :
    (b.applyForce f p1).isSleeping = b.isSleeping ∧
    (b.applyImpulse imp p2).isSleeping = b.isSleeping ∧
    b.wake.isSleeping = false := by
  refine ⟨?_, ?_, rfl⟩
  · unfold RigidBody.applyForce
    split <;> rfl
  · unfold RigidBody.applyImpulse
    split
    · rfl
    · cases p2 <;> rfl

/-- C4 counterexample: a sleeping non-static body stays sleeping after
`applyImpulse` and after `applyForce` — the claimed wake never happens, so the
body keeps being skipped by integration (`integrateBodies` skips bodies with
`isSleeping` set). -/
theorem C4_counterexample :
    ({ probeBody with isSleeping := true } : RigidBody).isStatic = false ∧
    ({ probeBody with isSleeping := true } : RigidBody).isSleeping = true ∧
    (({ probeBody with isSleeping := true } : RigidBody).applyImpulse ⟨1, 0⟩ none).isSleeping = true ∧
    (({ probeBody with isSleeping := true } : RigidBody).applyForce ⟨1, 0⟩ none).isSleeping = true := by
  refine ⟨rfl, rfl, ?_, ?_⟩ <;>
    simp [RigidBody.applyImpulse, RigidBody.applyForce, probeBody]

/-- C5 (amended): at construction and after every `updateDerivedProperties`
call, `inverseMass == 0` holds if and only if `mass <= 0`; non-positive mass
forces `isStatic`, but a body constructed with `isStatic` true and positive
mass keeps `inverseMass = 1/mass ≠ 0`. -/
theorem C5_inverseMass_zero_iff (r : Nat) (o : BodyOptions) (b : RigidBody) :
    ((mkRigidBody r o).inverseMass = 0 ↔ (mkRigidBody r o).mass ≤ 0) ∧
    (b.updateDerivedProperties.inverseMass = 0 ↔ b.updateDerivedProperties.mass ≤ 0) ∧
    (b.updateDerivedProperties.mass ≤ 0 → b.updateDerivedProperties.isStatic = true) := by
  have key : ∀ c : RigidBody,
      (c.updateDerivedProperties.inverseMass = 0 ↔ c.updateDerivedProperties.mass ≤ 0) ∧
      (c.updateDerivedProperties.mass ≤ 0 → c.updateDerivedProperties.isStatic = true) := by
    intro c
    have hm := (RigidBody.updateDerivedProperties_fields c).2.2.2.2.1
    have hi := RigidBody.updateDerivedProperties_inverseMass c
    have hs := RigidBody.updateDerivedProperties_isStatic c
    rw [hm, hi, hs]
    by_cases h : c.mass ≤ 0
    · simp [h]
    · have hpos : 0 < c.mass := lt_of_not_le h
      simp [h, one_div, inv_eq_zero]
      intro hz
      rw [hz] at hpos
      exact absurd hpos (lt_irrefl 0)
    
  exact ⟨(key _).1, (key b).1, (key b).2⟩

/-- C5 counterexample: a body constructed with `isStatic: true` (and the
default mass 1) has `inverseMass = 1`, not 0, while `isStatic` is true and
`mass > 0` — refuting "`inverseMass == 0` iff `mass <= 0` or `isStatic`". -/
theorem C5_counterexample :
    (mkRigidBody 0 { isStatic := some true }).isStatic = true ∧
    (mkRigidBody 0 { isStatic := some true }).inverseMass = 1 ∧
    ¬(mkRigidBody 0 { isStatic := some true }).mass ≤ 0 := by
  norm_num [mkRigidBody, RigidBody.updateDerivedProperties,
    RigidBody.updateMomentOfInertia, orNum, orStr, orBool]

theorem orNum_some_ne (x d : ℝ) (h : x ≠ 0) : orNum (some x) d = x := by
  simp [orNum, h]

theorem orNum_some_self (x : ℝ) : orNum (some x) 0 = x := by
  by_cases h : x = 0 <;> simp [orNum, h]

theorem orStr_some_ne (s d : String) (h : s ≠ "") : orStr (some s) d = s := by
  simp [orStr, h]

theorem orNum_ne_zero (o : Option ℝ) (d : ℝ) (hd : d ≠ 0) : orNum o d ≠ 0 := by
  cases o with
  | none => simpa [orNum]
  | some x =>
    by_cases h : x = 0 <;> simp [orNum, h, hd]

theorem orStr_ne_empty (o : Option String) (d : String) (hd : d ≠ "") :
    orStr o d ≠ "" := by
  cases o with
  | none => simpa [orStr]
  | some s =>
    by_cases h : s = "" <;> simp [orStr, h, hd]

/-- Every body the constructor returns satisfies `goodBody`: each of the
shielded fields has a non-falsy default, and non-positive mass forces
`isStatic` in `updateDerivedProperties`. -/
theorem mkRigidBody_good (r : Nat) (o : BodyOptions) : goodBody (mkRigidBody r o) := by
  unfold goodBody
  simp only [mkRigidBody, RigidBody.updateDerivedProperties_fields,
    RigidBody.updateDerivedProperties_isStatic]
  refine ⟨?_, ?_, ?_, ?_, ?_, ?_, ?_, ?_, ?_, ?_⟩
  · exact orNum_ne_zero _ _ one_ne_zero
  · exact orNum_ne_zero _ _ (by norm_num)
  · exact orNum_ne_zero _ _ (by norm_num)
  · exact orNum_ne_zero _ _ (by norm_num)
  · exact orNum_ne_zero _ _ (mul_ne_zero (orNum_ne_zero _ _ (by norm_num)) two_ne_zero)
  · exact orNum_ne_zero _ _ (mul_ne_zero (orNum_ne_zero _ _ (by norm_num)) two_ne_zero)
  · exact orStr_ne_empty _ _ (by decide)
  · exact orStr_ne_empty _ _ (by decide)
  · exact orStr_ne_empty _ _ (by decide)
  · intro hm
    simp [hm]

/-- Core of the round trip: rebuilding a `goodBody` body from its own
serialized record reproduces every field the claim lists. -/
theorem fromJSON_toJSON_matches (r : Nat) (b : RigidBody) (h : goodBody b) :
    matchFields b (RigidBody.fromJSON r b.toJSON) := by
  obtain ⟨hm, hr, hf, hrad, hw, hh, hs, hmat, hc, hstat⟩ := h
  unfold matchFields RigidBody.fromJSON RigidBody.toJSON
  simp only [mkRigidBody, RigidBody.updateDerivedProperties_fields,
    RigidBody.updateDerivedProperties_isStatic]
  simp only [Option.getD_some, orNum_some_ne _ _ hm, orNum_some_ne _ _ hr,
    orNum_some_ne _ _ hf, orNum_some_ne _ _ hrad, orNum_some_ne _ _ hw,
    orNum_some_ne _ _ hh, orNum_some_self, orStr_some_ne _ _ hs,
    orStr_some_ne _ _ hmat, orStr_some_ne _ _ hc, orBool, Bool.or_false]
  refine ⟨?_, ?_, ?_, ?_, ?_, ?_, ?_, ?_, ?_, ?_, ?_, ?_, ?_, ?_⟩ <;> try trivial
  by_cases hneg : b.mass ≤ 0
  · simp [hneg, hstat hneg]
  · simp [hneg]

theorem mkRigidBody_ref (r : Nat) (o : BodyOptions) : (mkRigidBody r o).ref = r := by
  simp [mkRigidBody, RigidBody.updateDerivedProperties_fields]

theorem addAll_bodies : ∀ (ds : List BodyJSON) (e : PhysicsEngine),
    (∀ b ∈ e.bodies, b.ref < e.nextRef) →
    (PhysicsEngine.addAll e ds).bodies = e.bodies ++ addedList e.nextRef ds := by
  intro ds
  induction ds with
  | nil =>
    intro e h
    simp [PhysicsEngine.addAll, addedList]
  | cons d ds ih =>
    intro e h
    have href : (RigidBody.fromJSON e.nextRef d).ref = e.nextRef :=
      mkRigidBody_ref _ _
    have hnew :
        (({ e with nextRef := e.nextRef + 1 } : PhysicsEngine).addBody
          (RigidBody.fromJSON e.nextRef d)).bodies =
        e.bodies ++ [RigidBody.fromJSON e.nextRef d] := by
      unfold PhysicsEngine.addBody
      have hany : (e.bodies.any fun b' => b'.ref = (RigidBody.fromJSON e.nextRef d).ref) = false := by
        rw [List.any_eq_false]
        intro b hb
        rw [href]
        simp only [decide_eq_true_eq]
        exact Nat.ne_of_lt (h b hb)
      simp [hany]
    have hnext :
        (({ e with nextRef := e.nextRef + 1 } : PhysicsEngine).addBody
          (RigidBody.fromJSON e.nextRef d)).nextRef = e.nextRef + 1 := by
      unfold PhysicsEngine.addBody
      split <;> rfl
    unfold PhysicsEngine.addAll
    rw [ih _ ?inv, hnew, hnext, addedList, List.append_assoc, List.singleton_append]
    case inv =>
      intro b hb
      rw [hnew, hnext] at *
      rcases List.mem_append.1 hb with hb | hb
      · exact Nat.lt_succ_of_lt (h b hb)
      · rcases List.mem_singleton.1 hb with rfl
        rw [href]
        exact Nat.lt_succ_self _

theorem roundtrip_forall2 : ∀ (bodies : List RigidBody) (r : Nat),
    (∀ b ∈ bodies, goodBody b) →
    List.Forall₂ matchFields bodies (addedList r (bodies.map RigidBody.toJSON)) := by
  intro bodies
  induction bodies with
  | nil =>
    intro r _
    simp [addedList]
  | cons b bs ih =>
    intro r h
    simp only [List.map_cons, addedList]
    exact List.Forall₂.cons
      (fromJSON_toJSON_matches r b (h b (List.mem_cons_self b bs)))
      (ih (r + 1) (fun c hc => h c (List.mem_cons_of_mem b hc)))

/-- C1: serialization round trip.  For every world whose bodies satisfy the
constructor-established invariant `goodBody` (every body the constructor or
`fromJSON` produces does, and no engine operation invalidates it),
`deserialize(serialize(world))` rebuilds a body list that matches the original
body for body in position, velocity, angle, angular velocity, mass,
restitution, friction, shape, dimensions, `isStatic`, material and color —
for any number of bodies of any shapes (`Forall₂` covers N = 0, 1, 50, …). -/
theorem C1_serialization_roundtrip (e : PhysicsEngine)
    (h : ∀ b ∈ e.bodies, goodBody b) :
    List.Forall₂ matchFields e.bodies ((e.deserialize e.serialize).bodies) := by
  unfold PhysicsEngine.deserialize PhysicsEngine.serialize PhysicsEngine.clear
  rw [addAll_bodies _ _ (by simp)]
  simp only [List.nil_append]
  exact roundtrip_forall2 e.bodies e.nextRef h

/-- C1 witness: the round trip on a concrete world holding one
constructor-built body. -/
theorem C1_witness :
    List.Forall₂ matchFields c1World.bodies ((c1World.deserialize c1World.serialize).bodies) :=
  C1_serialization_roundtrip c1World (by
    intro b hb
    have hb' : b = mkRigidBody 0 {} := by simpa [c1World] using hb
    rw [hb']
    exact mkRigidBody_good 0 {})

theorem emitCallbacks_append {δ σ ε : Type} (data : δ)
    (l1 l2 : List (δ → σ → Except ε σ)) (s : σ) :
    emitCallbacks data (l1 ++ l2) s =
      ((emitCallbacks data l2 (emitCallbacks data l1 s).1).1,
       (emitCallbacks data l1 s).2 ++ (emitCallbacks data l2 (emitCallbacks data l1 s).1).2) := by
  induction l1 generalizing s with
  | nil => simp [emitCallbacks]
  | cons cb rest ih =>
    simp only [List.cons_append, emitCallbacks]
    cases cb data s with
    | ok s' => exact ih s'
    | error err => simp [ih s]

/-- C6: the `emit` loop invokes each registered listener once, in registration
order, and a listener that throws is caught with its error logged while every
remaining listener still runs and `emit` still returns — listener-failure
isolation.  Stated as: (1) the callback loop processes a concatenation
sequentially, threading state and appending logs in order; (2) for a listener
list `pre ++ bad :: post` with `bad` always throwing, `emit` runs all of `pre`,
logs exactly `bad`'s error between the logs of `pre` and `post`, and runs all
of `post` from the state `pre` produced, unchanged by the throw. -/
theorem C6_listener_isolation {δ σ ε : Type}
    (listeners : List (String × List (δ → σ → Except ε σ)))
    (event : String) (data : δ) (s : σ)
    (pre post : List (δ → σ → Except ε σ)) (bad : δ → σ → Except ε σ) (err : ε)
    (hlook : listeners.lookup event = some (pre ++ bad :: post))
    (hbad : ∀ d t, bad d t = Except.error err) :
    (∀ (l1 l2 : List (δ → σ → Except ε σ)) (t : σ),
      emitCallbacks data (l1 ++ l2) t =
        ((emitCallbacks data l2 (emitCallbacks data l1 t).1).1,
         (emitCallbacks data l1 t).2 ++ (emitCallbacks data l2 (emitCallbacks data l1 t).1).2)) ∧
    emitEvent listeners event data s =
      ((emitCallbacks data post (emitCallbacks data pre s).1).1,
       (emitCallbacks data pre s).2 ++
         err :: (emitCallbacks data post (emitCallbacks data pre s).1).2) := by
  constructor
  · intro l1 l2 t
    exact emitCallbacks_append data l1 l2 t
  · unfold emitEvent
    rw [hlook]
    show emitCallbacks data (pre ++ bad :: post) s = _
    rw [emitCallbacks_append data pre (bad :: post) s]
    simp only [emitCallbacks, hbad]

/-- C6 witness: on the concrete listener list, both listeners around the
throwing one run (the state threads through both) and the error is logged in
between. -/
theorem C6_witness :
    emitEvent c6Listeners "collision" 3 (0 : Nat) =
      ((emitCallbacks 3 [c6ok2] (emitCallbacks 3 [c6ok1] (0 : Nat)).1).1,
       (emitCallbacks 3 [c6ok1] (0 : Nat)).2 ++
         7 :: (emitCallbacks 3 [c6ok2] (emitCallbacks 3 [c6ok1] (0 : Nat)).1).2) :=
  (C6_listener_isolation c6Listeners "collision" 3 0 [c6ok1] [c6ok2] c6bad 7
    (by simp [c6Listeners, List.lookup]) (fun _ _ => rfl)).2

theorem narrowPhase_some_not_both_static (a b : RigidBody)
    (c : RigidBody.Collision) (h : CollisionDetection.narrowPhase a b = some c) :
    a.isStatic = false ∨ b.isStatic = false := by
  unfold CollisionDetection.narrowPhase at h
  by_cases hs : a.isStatic ∧ b.isStatic
  · simp [hs] at h
  · rcases not_and_or.1 hs with hs | hs
    · exact Or.inl (Bool.not_eq_true _ ▸ hs)
    · exact Or.inr (Bool.not_eq_true _ ▸ hs)

/-- C10: for bodies of recognized shapes (`detectCollisions` only returns for
such bodies — `getBounds` inside the broad phase diverges otherwise), no pair
in the `detectCollisions` output has both bodies static: the static-static
guard at the top of `narrowPhase` fires before any shape dispatch, and
`handleCollisions` emits one `collision` event per returned pair, so the world
never emits a `collision` event for a static-static overlap. -/
theorem C10_no_static_static_pair (bodies : List RigidBody)
    (_hshapes : ∀ b ∈ bodies, b.knownShape) :
    List.Forall (fun p => p.bodyA.isStatic = false ∨ p.bodyB.isStatic = false)
      (CollisionDetection.detectCollisions bodies) ∧
    (∀ e : PhysicsEngine, e.bodies = bodies →
      List.Forall (fun p => p.bodyA.isStatic = false ∨ p.bodyB.isStatic = false)
        e.collisionEvents) := by
  have main :
      List.Forall (fun p => p.bodyA.isStatic = false ∨ p.bodyB.isStatic = false)
        (CollisionDetection.detectCollisions bodies) := by
    rw [List.forall_iff_forall_mem]
    intro p hp
    simp only [CollisionDetection.detectCollisions] at hp
    rcases List.mem_filterMap.1 hp with ⟨pair, _, heq⟩
    rcases Option.map_eq_some'.1 heq with ⟨c, hc, hpc⟩
    have hA : p.bodyA = pair.1 := by rw [← hpc]
    have hB : p.bodyB = pair.2 := by rw [← hpc]
    rw [hA, hB]
    exact narrowPhase_some_not_both_static pair.1 pair.2 c hc
  refine ⟨main, fun e he => ?_⟩
  rw [PhysicsEngine.collisionEvents, he]
  exact main

/-- C10 witness: the theorem applied to two concretely overlapping static
circles. -/
theorem C10_witness :
    List.Forall (fun p => p.bodyA.isStatic = false ∨ p.bodyB.isStatic = false)
      (CollisionDetection.detectCollisions [c10A, c10B]) :=
  (C10_no_static_static_pair [c10A, c10B] (by
    intro b hb
    rcases List.mem_cons.1 hb with rfl | hb
    · exact Or.inl rfl
    · rcases List.mem_cons.1 hb with rfl | hb
      · exact Or.inl rfl
      · exact absurd hb (List.not_mem_nil b))).1

theorem sqrt_hundred : Real.sqrt 100 = 10 := by
  rw [show (100 : ℝ) = 10 ^ 2 by norm_num, Real.sqrt_sq (by norm_num : (0:ℝ) ≤ 10)]

/-- C2: evaluation of the code at the failing input.  `circleCircleCollision`
produces the contact with unit normal `(1,0)` pointing from the first body
toward the second and depth `10`; `resolveCollision` on that contact moves
*both* centres to `(5,0)` — each body is displaced *toward* the other (the
separation vector is added to `this.position` and subtracted from
`other.position` with the normal pointing this→other), so the centre distance
drops from 10 to 0 and the penetration grows instead of shrinking. -/
theorem C2_positional_separation_bug :
    CollisionDetection.circleCircleCollision c2A c2B =
      some ⟨⟨1, 0⟩, 10, ⟨10, 0⟩⟩ ∧
    (c2A.resolveCollision c2B ⟨⟨1, 0⟩, 10, ⟨10, 0⟩⟩).1.position = ⟨5, 0⟩ ∧
    (c2A.resolveCollision c2B ⟨⟨1, 0⟩, 10, ⟨10, 0⟩⟩).2.position = ⟨5, 0⟩ ∧
    Vector2D.dist c2A.position c2B.position = 10 ∧
    Vector2D.dist (c2A.resolveCollision c2B ⟨⟨1, 0⟩, 10, ⟨10, 0⟩⟩).1.position
      (c2A.resolveCollision c2B ⟨⟨1, 0⟩, 10, ⟨10, 0⟩⟩).2.position = 0 := by
  have h100 : ((0:ℝ) - 10) * (0 - 10) + (0 - 0) * (0 - 0) = 100 := by norm_num
  have hd : Vector2D.dist (⟨0, 0⟩ : Vector2D) (⟨10, 0⟩ : Vector2D) = 10 := by
    simp only [Vector2D.dist, Vector2D.subtract, Vector2D.magnitude, h100, sqrt_hundred]
  refine ⟨?_, ?_, ?_, ?_, ?_⟩
  · unfold CollisionDetection.circleCircleCollision
    simp only [c2A, c2B, probeBody, hd]
    norm_num [Vector2D.normalize, Vector2D.subtract, Vector2D.magnitude,
      Vector2D.add, Vector2D.multiply, sqrt_hundred]
  · norm_num [RigidBody.resolveCollision, RigidBody.separateObjects,
      RigidBody.applyFriction,
      RigidBody.wake, c2A, c2B, probeBody, Vector2D.add, Vector2D.subtract,
      Vector2D.multiply, Vector2D.dot, Vector2D.isZero, Vector2D.magnitude,
      Vector2D.normalize, Real.sqrt_zero]
  · norm_num [RigidBody.resolveCollision, RigidBody.separateObjects,
      RigidBody.applyFriction,
      RigidBody.wake, c2A, c2B, probeBody, Vector2D.add, Vector2D.subtract,
      Vector2D.multiply, Vector2D.dot, Vector2D.isZero, Vector2D.magnitude,
      Vector2D.normalize, Real.sqrt_zero]
  · simpa [c2A, c2B, probeBody] using hd
  · norm_num [RigidBody.resolveCollision, RigidBody.separateObjects,
      RigidBody.applyFriction,
      RigidBody.wake, c2A, c2B, probeBody, Vector2D.add, Vector2D.subtract,
      Vector2D.multiply, Vector2D.dot, Vector2D.isZero, Vector2D.magnitude,
      Vector2D.normalize, Vector2D.dist, Real.sqrt_zero]

theorem separateObjects_fields (a b : RigidBody) (n : Vector2D) (d : ℝ) :
    (RigidBody.separateObjects a b n d).1.velocity = a.velocity ∧
    (RigidBody.separateObjects a b n d).1.mass = a.mass ∧
    (RigidBody.separateObjects a b n d).1.inverseMass = a.inverseMass ∧
    (RigidBody.separateObjects a b n d).1.isStatic = a.isStatic ∧
    (RigidBody.separateObjects a b n d).2.velocity = b.velocity ∧
    (RigidBody.separateObjects a b n d).2.mass = b.mass ∧
    (RigidBody.separateObjects a b n d).2.inverseMass = b.inverseMass ∧
    (RigidBody.separateObjects a b n d).2.isStatic = b.isStatic := by
  unfold RigidBody.separateObjects
  dsimp only
  split_ifs <;> simp

theorem getMomentum_set_flags (x : RigidBody) (v : Vector2D) :
    ({ x with colliding := true, collisionNormal := v } : RigidBody).getMomentum
      = x.getMomentum := rfl

theorem applyFriction_getMomentum (a b : RigidBody) (n : Vector2D) (j : ℝ)
    (ha : a.isStatic = false) (hb : b.isStatic = false)
    (hA : a.mass ≠ 0) (hB : b.mass ≠ 0)
    (hia : a.inverseMass = 1 / a.mass) (hib : b.inverseMass = 1 / b.mass) :
    ((RigidBody.applyFriction a b n j).1.getMomentum).add
      ((RigidBody.applyFriction a b n j).2.getMomentum) =
    (a.getMomentum).add b.getMomentum := by
  unfold RigidBody.applyFriction RigidBody.getMomentum
  dsimp only
  simp only [ha, hb, Bool.false_eq_true, if_false]
  split_ifs
  · rfl
  · simp only [Vector2D.add, Vector2D.subtract, Vector2D.multiply,
      Vector2D.mk.injEq, hia, hib]
    constructor <;> (field_simp; try ring)

/-- C3: momentum conservation.  For a two-body collision between non-static
bodies with consistent inverse masses (`inverseMass = 1/mass`, the invariant
`updateDerivedProperties` maintains for positive-mass dynamic bodies), the
total momentum `m_A·v_A + m_B·v_B` is exactly unchanged by `resolveCollision`
— for every contact and every restitution value, and including the friction
impulse `applyFriction` applies, since both the restitution impulse and the
clamped friction impulse are added to one velocity and subtracted from the
other scaled by the respective inverse masses. -/
theorem C3_momentum_conservation (a b : RigidBody) (c : RigidBody.Collision)
    (ha : a.isStatic = false) (hb : b.isStatic = false)
    (hma : 0 < a.mass) (hmb : 0 < b.mass)
    (hia : a.inverseMass = 1 / a.mass) (hib : b.inverseMass = 1 / b.mass) :
    ((a.resolveCollision b c).1.getMomentum).add
      ((a.resolveCollision b c).2.getMomentum) =
    (a.getMomentum).add b.getMomentum := by
  have hA : a.mass ≠ 0 := ne_of_gt hma
  have hB : b.mass ≠ 0 := ne_of_gt hmb
  obtain ⟨s1v, s1m, s1im, s1s, s2v, s2m, s2im, s2s⟩ :=
    separateObjects_fields a.wake b.wake c.normal c.depth
  have hwav : a.wake.velocity = a.velocity := rfl
  have hwbv : b.wake.velocity = b.velocity := rfl
  have hwam : a.wake.mass = a.mass := rfl
  have hwbm : b.wake.mass = b.mass := rfl
  have hwai : a.wake.inverseMass = a.inverseMass := rfl
  have hwbi : b.wake.inverseMass = b.inverseMass := rfl
  have hwas : a.wake.isStatic = false := ha
  have hwbs : b.wake.isStatic = false := hb
  unfold RigidBody.resolveCollision
  rw [if_neg (by simp [ha])]
  dsimp only
  simp only [s1v, s1m, s1im, s1s, s2v, s2m, s2im, s2s, hwav, hwbv, hwam, hwbm,
    hwai, hwbi, hwas, hwbs, Bool.false_eq_true, if_false]
  split_ifs with hvan
  · unfold RigidBody.getMomentum
    rw [s1v, s1m, s2v, s2m]
    rfl
  · rw [getMomentum_set_flags, getMomentum_set_flags]
    rw [applyFriction_getMomentum _ _ _ _
      (by simp [s1s, hwas]) (by simp [s2s, hwbs])
      (by simpa [s1m, hwam] using hA) (by simpa [s2m, hwbm] using hB)
      (by simp [s1m, s1im, hwam, hwai]; simpa [one_div] using hia)
      (by simp [s2m, s2im, hwbm, hwbi]; simpa [one_div] using hib)]
    unfold RigidBody.getMomentum
    simp only [s1v, s1m, s2v, s2m, hwav, hwbv, hwam, hwbm]
    simp only [Vector2D.add, Vector2D.subtract, Vector2D.multiply,
      Vector2D.mk.injEq, hia, hib]
    constructor <;> (field_simp; try ring)

/-- C3 witness: total momentum around a concrete head-on contact. -/
theorem C3_witness :
    (((c3A.resolveCollision c3B ⟨⟨1, 0⟩, 5, ⟨10, 0⟩⟩).1.getMomentum).add
      ((c3A.resolveCollision c3B ⟨⟨1, 0⟩, 5, ⟨10, 0⟩⟩).2.getMomentum)) =
    (c3A.getMomentum).add c3B.getMomentum :=
  C3_momentum_conservation c3A c3B ⟨⟨1, 0⟩, 5, ⟨10, 0⟩⟩ rfl rfl one_pos one_pos
    (by norm_num [c3A, probeBody]) (by norm_num [c3B, probeBody])

theorem boundSideLeft_not (wb B : Bounds) (st : RigidBody × Bool)
    (h : ¬B.left < wb.left) : PhysicsEngine.boundSideLeft wb B st = st := by
  unfold PhysicsEngine.boundSideLeft
  rw [if_neg h]

theorem boundSideRight_not (wb B : Bounds) (st : RigidBody × Bool)
    (h : ¬B.right > wb.right) : PhysicsEngine.boundSideRight wb B st = st := by
  unfold PhysicsEngine.boundSideRight
  rw [if_neg h]

theorem boundSideBottom_not (wb B : Bounds) (st : RigidBody × Bool)
    (h : ¬B.bottom < wb.bottom) : PhysicsEngine.boundSideBottom wb B st = st := by
  unfold PhysicsEngine.boundSideBottom
  rw [if_neg h]

theorem boundSideTop_not (wb B : Bounds) (st : RigidBody × Bool)
    (h : ¬B.top > wb.top) : PhysicsEngine.boundSideTop wb B st = st := by
  unfold PhysicsEngine.boundSideTop
  rw [if_neg h]

theorem boundSideLeft_hit (wb B : Bounds) (st : RigidBody × Bool)
    (h : B.left < wb.left) :
    PhysicsEngine.boundSideLeft wb B st =
      ({ st.1 with
          position := ⟨wb.left + (st.1.position.x - B.left), st.1.position.y⟩,
          velocity := ⟨if st.1.velocity.x < (0:ℝ) then st.1.velocity.x * -st.1.restitution
            else st.1.velocity.x, st.1.velocity.y⟩ }, true) := by
  unfold PhysicsEngine.boundSideLeft
  rw [if_pos h]
  dsimp only
  split_ifs <;> rfl

theorem boundSideRight_hit (wb B : Bounds) (st : RigidBody × Bool)
    (h : B.right > wb.right) :
    PhysicsEngine.boundSideRight wb B st =
      ({ st.1 with
          position := ⟨wb.right - (B.right - st.1.position.x), st.1.position.y⟩,
          velocity := ⟨if st.1.velocity.x > (0:ℝ) then st.1.velocity.x * -st.1.restitution
            else st.1.velocity.x, st.1.velocity.y⟩ }, true) := by
  unfold PhysicsEngine.boundSideRight
  rw [if_pos h]
  dsimp only
  split_ifs <;> rfl

theorem boundSideBottom_hit (wb B : Bounds) (st : RigidBody × Bool)
    (h : B.bottom < wb.bottom) :
    PhysicsEngine.boundSideBottom wb B st =
      ({ st.1 with
          position := ⟨st.1.position.x, wb.bottom + (st.1.position.y - B.bottom)⟩,
          velocity := ⟨st.1.velocity.x, if st.1.velocity.y < (0:ℝ) then
            st.1.velocity.y * -st.1.restitution else st.1.velocity.y⟩ }, true) := by
  unfold PhysicsEngine.boundSideBottom
  rw [if_pos h]
  dsimp only
  split_ifs <;> rfl

theorem boundSideTop_hit (wb B : Bounds) (st : RigidBody × Bool)
    (h : B.top > wb.top) :
    PhysicsEngine.boundSideTop wb B st =
      ({ st.1 with
          position := ⟨st.1.position.x, wb.top - (B.top - st.1.position.y)⟩,
          velocity := ⟨st.1.velocity.x, if st.1.velocity.y > (0:ℝ) then
            st.1.velocity.y * -st.1.restitution else st.1.velocity.y⟩ }, true) := by
  unfold PhysicsEngine.boundSideTop
  rw [if_pos h]
  dsimp only
  split_ifs <;> rfl

/-- C7 (amended): for a non-static body of recognized shape whose AABB exceeds
exactly one configured world bound, one `enforceBoundsBody` call clamps the
violated side of the AABB exactly onto that bound, leaves the orthogonal
position coordinate unchanged, flips the sign of the offending velocity
component scaled by the body restitution *only when that component points
outward toward the violated bound* (otherwise the velocity is unchanged), and
sets the corrected flag — which makes the engine emit exactly one
`boundsCollision` event carrying the corrected body. -/
theorem C7_enforceBounds_sides (wb : Bounds) (body : RigidBody)
    (hshape : body.knownShape) (hns : body.isStatic = false) :
    (body.getBounds.left < wb.left ∧ ¬body.getBounds.right > wb.right ∧
       ¬body.getBounds.bottom < wb.bottom ∧ ¬body.getBounds.top > wb.top →
      (PhysicsEngine.enforceBoundsBody wb body).1.getBounds.left = wb.left ∧
      (PhysicsEngine.enforceBoundsBody wb body).1.position.y = body.position.y ∧
      (PhysicsEngine.enforceBoundsBody wb body).1.velocity =
        ⟨if body.velocity.x < (0:ℝ) then body.velocity.x * -body.restitution
         else body.velocity.x, body.velocity.y⟩ ∧
      (PhysicsEngine.enforceBoundsBody wb body).2 = true) ∧
    (¬body.getBounds.left < wb.left ∧ body.getBounds.right > wb.right ∧
       ¬body.getBounds.bottom < wb.bottom ∧ ¬body.getBounds.top > wb.top →
      (PhysicsEngine.enforceBoundsBody wb body).1.getBounds.right = wb.right ∧
      (PhysicsEngine.enforceBoundsBody wb body).1.position.y = body.position.y ∧
      (PhysicsEngine.enforceBoundsBody wb body).1.velocity =
        ⟨if body.velocity.x > (0:ℝ) then body.velocity.x * -body.restitution
         else body.velocity.x, body.velocity.y⟩ ∧
      (PhysicsEngine.enforceBoundsBody wb body).2 = true) ∧
    (¬body.getBounds.left < wb.left ∧ ¬body.getBounds.right > wb.right ∧
       body.getBounds.bottom < wb.bottom ∧ ¬body.getBounds.top > wb.top →
      (PhysicsEngine.enforceBoundsBody wb body).1.getBounds.bottom = wb.bottom ∧
      (PhysicsEngine.enforceBoundsBody wb body).1.position.x = body.position.x ∧
      (PhysicsEngine.enforceBoundsBody wb body).1.velocity =
        ⟨body.velocity.x,
         if body.velocity.y < (0:ℝ) then body.velocity.y * -body.restitution
         else body.velocity.y⟩ ∧
      (PhysicsEngine.enforceBoundsBody wb body).2 = true) ∧
    (¬body.getBounds.left < wb.left ∧ ¬body.getBounds.right > wb.right ∧
       ¬body.getBounds.bottom < wb.bottom ∧ body.getBounds.top > wb.top →
      (PhysicsEngine.enforceBoundsBody wb body).1.getBounds.top = wb.top ∧
      (PhysicsEngine.enforceBoundsBody wb body).1.position.x = body.position.x ∧
      (PhysicsEngine.enforceBoundsBody wb body).1.velocity =
        ⟨body.velocity.x,
         if body.velocity.y > (0:ℝ) then body.velocity.y * -body.restitution
         else body.velocity.y⟩ ∧
      (PhysicsEngine.enforceBoundsBody wb body).2 = true) ∧
    (∀ e : PhysicsEngine, e.bounds = wb → e.bodies = [body] →
      (PhysicsEngine.enforceBoundsBody wb body).2 = true →
      (PhysicsEngine.enforceBounds e).2 = [(PhysicsEngine.enforceBoundsBody wb body).1]) := by
  refine ⟨?_, ?_, ?_, ?_, ?_⟩
  · rintro ⟨hL, hnR, hnB, hnT⟩
    unfold PhysicsEngine.enforceBoundsBody
    dsimp only
    rw [boundSideLeft_hit _ _ _ hL, boundSideRight_not _ _ _ hnR,
      boundSideBottom_not _ _ _ hnB, boundSideTop_not _ _ _ hnT]
    refine ⟨?_, rfl, rfl, rfl⟩
    rcases hshape with hc | hc <;> simp [RigidBody.getBounds, hc]
  · rintro ⟨hnL, hR, hnB, hnT⟩
    unfold PhysicsEngine.enforceBoundsBody
    dsimp only
    rw [boundSideLeft_not _ _ _ hnL, boundSideRight_hit _ _ _ hR,
      boundSideBottom_not _ _ _ hnB, boundSideTop_not _ _ _ hnT]
    refine ⟨?_, rfl, rfl, rfl⟩
    rcases hshape with hc | hc <;> simp [RigidBody.getBounds, hc]
  · rintro ⟨hnL, hnR, hB, hnT⟩
    unfold PhysicsEngine.enforceBoundsBody
    dsimp only
    rw [boundSideLeft_not _ _ _ hnL, boundSideRight_not _ _ _ hnR,
      boundSideBottom_hit _ _ _ hB, boundSideTop_not _ _ _ hnT]
    refine ⟨?_, rfl, rfl, rfl⟩
    rcases hshape with hc | hc <;> simp [RigidBody.getBounds, hc]
  · rintro ⟨hnL, hnR, hnB, hT⟩
    unfold PhysicsEngine.enforceBoundsBody
    dsimp only
    rw [boundSideLeft_not _ _ _ hnL, boundSideRight_not _ _ _ hnR,
      boundSideBottom_not _ _ _ hnB, boundSideTop_hit _ _ _ hT]
    refine ⟨?_, rfl, rfl, rfl⟩
    rcases hshape with hc | hc <;> simp [RigidBody.getBounds, hc]
  · intro e hbnds hbodies hcorr
    unfold PhysicsEngine.enforceBounds
    rw [hbodies, hbnds]
    simp only [List.foldl, hns, Bool.false_eq_true, if_false, hcorr]
    simp

/-- C7 counterexample: a non-static body whose AABB exceeds the left world
bound but whose x velocity points inward is repositioned, and one
`boundsCollision` is flagged, but its velocity is left entirely unchanged —
the claimed unconditional sign flip scaled by restitution (which would give
`x` velocity `-4`) does not happen. -/
theorem C7_counterexample :
    c7body.getBounds.left < c7wb.left ∧
    c7body.isStatic = false ∧
    c7body.velocity.x = 5 ∧
    c7body.restitution = 0.8 ∧
    (PhysicsEngine.enforceBoundsBody c7wb c7body).1.velocity = c7body.velocity ∧
    (PhysicsEngine.enforceBoundsBody c7wb c7body).2 = true := by
  norm_num [PhysicsEngine.enforceBoundsBody, PhysicsEngine.boundSideLeft,
    PhysicsEngine.boundSideRight, PhysicsEngine.boundSideBottom,
    PhysicsEngine.boundSideTop, RigidBody.getBounds, c7body, c7wb, probeBody]

/-- C7 witness: the amended theorem applied to the concrete left-bound
violation. -/
theorem C7_witness :
    (PhysicsEngine.enforceBoundsBody c7wb c7body).1.getBounds.left = c7wb.left ∧
    (PhysicsEngine.enforceBoundsBody c7wb c7body).1.position.y = c7body.position.y ∧
    (PhysicsEngine.enforceBoundsBody c7wb c7body).1.velocity =
      ⟨if c7body.velocity.x < (0:ℝ) then c7body.velocity.x * -c7body.restitution
       else c7body.velocity.x, c7body.velocity.y⟩ ∧
    (PhysicsEngine.enforceBoundsBody c7wb c7body).2 = true :=
  (C7_enforceBounds_sides c7wb c7body (Or.inl rfl) rfl).1
    (by norm_num [RigidBody.getBounds, c7body, c7wb, probeBody])

namespace CollisionDetection

theorem rayCandidate_nonneg (o d : Vector2D) (b : RigidBody) (hit : RaycastHit)
    (h : rayCandidate o d b = some hit) : 0 ≤ hit.distance := by
  unfold rayCandidate at h
  dsimp only at h
  split_ifs at h <;> cases h
  all_goals dsimp only
  all_goals push_neg at *
  all_goals linarith

set_option maxHeartbeats 1000000 in
theorem raycastBody_eq_candidate (o d : Vector2D) (b : RigidBody) (c : ℝ) :
    raycastBody o d b c =
      (rayCandidate o d b).bind
        (fun h => if h.distance > c then none else some h) := by
  by_cases h1 : b.shape = "circle"
  · unfold raycastBody rayCandidate raycastCircle
    rw [if_pos h1, if_pos h1]
    dsimp only
    split_ifs <;>
      first
      | rfl
      | tauto
      | (simp only [Option.some_bind]
         dsimp only
         split_ifs <;> first | rfl | tauto)
  · by_cases h2 : b.shape = "rectangle"
    · unfold raycastBody rayCandidate raycastRectangle
      rw [if_neg h1, if_pos h2, if_neg h1, if_pos h2]
      dsimp only
      split_ifs <;>
        first
        | rfl
        | tauto
        | (simp only [Option.some_bind]
           dsimp only
           split_ifs <;> first | rfl | tauto)
    · unfold raycastBody rayCandidate
      rw [if_neg h1, if_neg h2, if_neg h1, if_neg h2]
      rfl

theorem raycastLoop_spec (o d : Vector2D) :
    ∀ (l : List RigidBody) (best : Option RaycastHit) (cd : ℝ),
      (∀ hb, best = some hb → hb.distance = cd) →
      (raycastLoop o d l best cd = best ∧
        ∀ b2 ∈ l, ∀ h2, rayCandidate o d b2 = some h2 → cd ≤ h2.distance) ∨
      (∃ h, raycastLoop o d l best cd = some h ∧
        0 ≤ h.distance ∧ h.distance < cd ∧
        (∃ b2 ∈ l, rayCandidate o d b2 = some h) ∧
        ∀ b2 ∈ l, ∀ h2, rayCandidate o d b2 = some h2 →
          h.distance ≤ h2.distance) := by
  intro l
  induction l with
  | nil =>
    intro best cd _
    left
    exact ⟨rfl, by simp⟩
  | cons b bs ih =>
    intro best cd hbest
    simp only [raycastLoop, raycastBody_eq_candidate]
    cases hc : rayCandidate o d b with
    | none =>
      simp only [Option.none_bind]
      rcases ih best cd hbest with ⟨heq, hmin⟩ | ⟨h, hr, hpos, hlt, hmem, hmin⟩
      · left
        refine ⟨heq, ?_⟩
        intro b2 hb2 h2 hcand
        rcases List.mem_cons.1 hb2 with rfl | hb2
        · rw [hc] at hcand; cases hcand
        · exact hmin b2 hb2 h2 hcand
      · right
        refine ⟨h, hr, hpos, hlt, ?_, ?_⟩
        · rcases hmem with ⟨b2, hb2, hcand⟩
          exact ⟨b2, List.mem_cons_of_mem b hb2, hcand⟩
        · intro b2 hb2 h2 hcand
          rcases List.mem_cons.1 hb2 with rfl | hb2
          · rw [hc] at hcand; cases hcand
          · exact hmin b2 hb2 h2 hcand
    | some h0 =>
      have h0pos : 0 ≤ h0.distance := rayCandidate_nonneg o d b h0 hc
      simp only [Option.some_bind]
      by_cases hgt : h0.distance > cd
      · rw [if_pos hgt]
        rcases ih best cd hbest with ⟨heq, hmin⟩ | ⟨h, hr, hpos, hlt, hmem, hmin⟩
        · left
          refine ⟨heq, ?_⟩
          intro b2 hb2 h2 hcand
          rcases List.mem_cons.1 hb2 with rfl | hb2
          · rw [hc] at hcand
            rw [Option.some_inj] at hcand
            rw [← hcand]
            exact le_of_lt hgt
          · exact hmin b2 hb2 h2 hcand
        · right
          refine ⟨h, hr, hpos, hlt, ?_, ?_⟩
          · rcases hmem with ⟨b2, hb2, hcand⟩
            exact ⟨b2, List.mem_cons_of_mem b hb2, hcand⟩
          · intro b2 hb2 h2 hcand
            rcases List.mem_cons.1 hb2 with rfl | hb2
            · rw [hc] at hcand
              rw [Option.some_inj] at hcand
              rw [← hcand]
              exact le_of_lt (lt_trans hlt hgt)
            · exact hmin b2 hb2 h2 hcand
      · rw [if_neg hgt]
        dsimp only
        by_cases hlt0 : h0.distance < cd
        · rw [if_pos hlt0]
          have hb' : ∀ hb, (some h0 : Option RaycastHit) = some hb →
              hb.distance = h0.distance := by
            intro hb he
            rw [Option.some_inj] at he
            rw [he]
          rcases ih (some h0) h0.distance hb' with ⟨heq, hmin⟩ | ⟨h, hr, hpos, hlt, hmem, hmin⟩
          · right
            refine ⟨h0, heq, h0pos, hlt0, ⟨b, List.mem_cons_self b bs, hc⟩, ?_⟩
            intro b2 hb2 h2 hcand
            rcases List.mem_cons.1 hb2 with rfl | hb2
            · rw [hc] at hcand
              rw [Option.some_inj] at hcand
              rw [← hcand]
            · exact hmin b2 hb2 h2 hcand
          · right
            refine ⟨h, hr, hpos, lt_trans hlt hlt0, ?_, ?_⟩
            · rcases hmem with ⟨b2, hb2, hcand⟩
              exact ⟨b2, List.mem_cons_of_mem b hb2, hcand⟩
            · intro b2 hb2 h2 hcand
              rcases List.mem_cons.1 hb2 with rfl | hb2
              · rw [hc] at hcand
                rw [Option.some_inj] at hcand
                rw [← hcand]
                exact le_of_lt hlt
              · exact hmin b2 hb2 h2 hcand
        · rw [if_neg hlt0]
          have hcd : cd ≤ h0.distance := not_lt.mp hlt0
          rcases ih best cd hbest with ⟨heq, hmin⟩ | ⟨h, hr, hpos, hlt, hmem, hmin⟩
          · left
            refine ⟨heq, ?_⟩
            intro b2 hb2 h2 hcand
            rcases List.mem_cons.1 hb2 with rfl | hb2
            · rw [hc] at hcand
              rw [Option.some_inj] at hcand
              rw [← hcand]
              exact hcd
            · exact hmin b2 hb2 h2 hcand
          · right
            refine ⟨h, hr, hpos, hlt, ?_, ?_⟩
            · rcases hmem with ⟨b2, hb2, hcand⟩
              exact ⟨b2, List.mem_cons_of_mem b hb2, hcand⟩
            · intro b2 hb2 h2 hcand
              rcases List.mem_cons.1 hb2 with rfl | hb2
              · rw [hc] at hcand
                rw [Option.some_inj] at hcand
                rw [← hcand]
                exact le_trans (le_of_lt hlt) hcd
              · exact hmin b2 hb2 h2 hcand

end CollisionDetection

theorem c8_body_eval :
    CollisionDetection.raycastBody ⟨0, 0⟩ ⟨1, 0⟩ c8circle 1000 = some c8hit := by
  unfold CollisionDetection.raycastBody CollisionDetection.raycastCircle
  norm_num [c8circle, probeBody, c8hit, Vector2D.subtract, Vector2D.dot,
    Vector2D.add, Vector2D.multiply, Vector2D.dist, Vector2D.magnitude,
    Vector2D.normalize, Real.sqrt_zero, sqrt_hundred]

theorem c8_scenario :
    CollisionDetection.raycast ⟨0, 0⟩ ⟨1, 0⟩ 1000 [c8circle] = some c8hit := by
  unfold CollisionDetection.raycast
  simp only [CollisionDetection.raycastLoop, c8_body_eval]
  norm_num [c8hit]

/-- C8: `raycast` soundness and minimality, plus the spec's scenario.  General
part, for every origin, direction, cutoff and body list: when `raycast`
returns `none`, no body has a geometric candidate intersection (forward along
the ray, `t ≥ 0` built into `rayCandidate`) with distance below `maxDistance`;
when it returns a hit, that hit has `0 ≤ distance < maxDistance`
(intersections behind the origin or beyond the cutoff are rejected), is the
candidate of one of the bodies, and no body's candidate is strictly closer.
Scenario part: a ray from `(0,0)` along `(1,0)` against a static circle at
`(100,0)` with radius 10 reports the hit at distance 90 with normal
`(-1,0)`. -/
theorem C8_raycast_closest :
    (∀ (o d : Vector2D) (maxD : ℝ) (bodies : List RigidBody),
      (CollisionDetection.raycast o d maxD bodies = none →
        ∀ b ∈ bodies, ∀ h, CollisionDetection.rayCandidate o d b = some h →
          ¬h.distance < maxD) ∧
      (∀ h, CollisionDetection.raycast o d maxD bodies = some h →
        0 ≤ h.distance ∧ h.distance < maxD ∧
        (∃ b ∈ bodies, CollisionDetection.rayCandidate o d b = some h) ∧
        ∀ b ∈ bodies, ∀ h2, CollisionDetection.rayCandidate o d b = some h2 →
          h.distance ≤ h2.distance)) ∧
    CollisionDetection.raycast ⟨0, 0⟩ ⟨1, 0⟩ 1000 [c8circle] = some c8hit ∧
    c8hit.distance = 90 ∧ c8hit.normal = ⟨-1, 0⟩ := by
  refine ⟨?_, c8_scenario, rfl, rfl⟩
  intro o d maxD bodies
  have hnone : ∀ hb : CollisionDetection.RaycastHit,
      (none : Option CollisionDetection.RaycastHit) = some hb →
        hb.distance = maxD := by
    intro hb he
    cases he
  constructor
  · intro hres b hb h hcand hlt
    unfold CollisionDetection.raycast at hres
    rcases CollisionDetection.raycastLoop_spec o d bodies none maxD hnone with
      ⟨_, hmin⟩ | ⟨h', hr, _, _, _, _⟩
    · exact absurd hlt (not_lt.mpr (hmin b hb h hcand))
    · rw [hr] at hres
      cases hres
  · intro h hres
    unfold CollisionDetection.raycast at hres
    rcases CollisionDetection.raycastLoop_spec o d bodies none maxD hnone with
      ⟨heq, _⟩ | ⟨h', hr, hpos, hlt, hmem, hmin⟩
    · rw [heq] at hres
      cases hres
    · rw [hr] at hres
      rw [Option.some_inj] at hres
      rw [← hres]
      exact ⟨hpos, hlt, hmem, hmin⟩
